import Mathlib

/-!
# Verification development for `grizzy-ai-charts`

A shallow embedding of `src/tool.js` (the text-to-chart generator) together with the
validation semantics of the schema library it is built on.

* JavaScript values are the inductive type `JsValue`; numbers are `JsNumber`
  (a finite value kept as an exact rational, an infinity, or NaN).
* The schema handed to `StructuredOutputParser.fromZodSchema` is the term `parser.schema`
  of type `Zod`; `Zod.parse` is the validation function of that library, restricted to the
  combinators the source uses: a primitive schema accepts the values of its type (a number
  schema refuses NaN), an enumeration accepts its strings, an array schema validates every
  element, an object schema validates its own keys and drops the others, an optional schema
  also accepts `undefined`.
* Everything outside the repository (the chat model, the embedding store, the CSV loader, the
  canvas, `JSON.parse`, `JSON.stringify`, `prettify`) is a field of `Externals`, so every
  theorem holds for all behaviours of these collaborators.
  Each call to an effectful collaborator is recorded as an `Event` in the trace of `Eff`.
* The constructors of the two clients throw when no API key is found, and so does the
  constructor of the generator.
* Objects are values here, and the one place where an object is shared and written to is made
  explicit: the renderer hands back the configuration as it leaves it (`Rendered`), and that is
  the configuration the snippet generator reads.
* The methods of `GrizzyAIChartGen` keep their names; the instance is the argument `self`.
-/

namespace GrizzyCharts

/-! ## JavaScript values -/

/-- A JavaScript number: a finite value (as an exact rational), plus or minus infinity, or NaN. -/
inductive JsNumber where
  | finite (q : Rat)
  | infinity (negative : Bool)
  | nan
  deriving DecidableEq, Repr

/-- The test `isNaN(n)`. -/
def JsNumber.isNaN : JsNumber → Bool
  | .nan => true
  | _ => false

/-- A JavaScript value as far as the program can observe one: `undefined`, the JSON values,
and objects as ordered key/value lists (the first binding of a key is the one that counts). -/
inductive JsValue where
  | undefined
  | null
  | bool (b : Bool)
  | num (n : JsNumber)
  | str (s : String)
  | arr (items : List JsValue)
  | obj (props : List (String × JsValue))
  deriving Repr

namespace JsValue

/-- The test `v === undefined`. -/
def isUndefined : JsValue → Bool
  | .undefined => true
  | _ => false

/-- Property read `v[k]` or `v.k`: `undefined` when the key is missing. -/
def get (v : JsValue) (k : String) : JsValue :=
  match v with
  | .obj props => (props.lookup k).getD .undefined
  | _ => .undefined

/-- The test `k in v` for an object. -/
def has (v : JsValue) (k : String) : Bool :=
  match v with
  | .obj props => (props.lookup k).isSome
  | _ => false

/-- Assignment of one property while an object literal is built: an existing key keeps its
position and takes the new value, a new key goes to the end. -/
def setProp (k : String) (v : JsValue) : List (String × JsValue) → List (String × JsValue)
  | [] => [(k, v)]
  | (k', v') :: rest => if k' = k then (k, v) :: rest else (k', v') :: setProp k v rest

/-- Object spread `{...base, ...extra}` on property lists. -/
def spread (base extra : List (String × JsValue)) : List (String × JsValue) :=
  extra.foldl (fun acc p => setProp p.1 p.2 acc) base

/-- Optional chaining `v?.k`. -/
def optionalGet (v : JsValue) (k : String) : JsValue :=
  match v with
  | .undefined => .undefined
  | .null => .undefined
  | r => r.get k

/-- Rest pattern `{k1, ..., kn, ...rest} = v`: the properties of `v` not named in `keys`. -/
def restProps (keys : List String) : JsValue → List (String × JsValue)
  | .obj props => props.filter (fun p => !(keys.contains p.1))
  | _ => []

end JsValue

/-! ## The schema language and its validation -/

/-- The schema combinators used by the source: `z.string()`, `z.number()`, `z.boolean()`,
`z.enum([...])`, `z.array(...)`, `z.object({...})`, `.optional()` and `.describe(...)`. -/
inductive Zod where
  | string
  | number
  | boolean
  | enum (values : List String)
  | array (element : Zod)
  | object (shape : List (String × Zod))
  | optional (inner : Zod)
  | describe (inner : Zod) (description : String)

/-- All results present, in order; `none` as soon as one is missing. -/
def allSome {α : Type} : List (Option α) → Option (List α)
  | [] => some []
  | none :: _ => none
  | some a :: rest =>
    match allSome rest with
    | some as => some (a :: as)
    | none => none

mutual
/-- Validation of a value against a schema: `some out` is the parsed value, `none` is a
validation failure. Objects are parsed key by key in shape order and unknown keys are dropped;
`describe` has no effect on validation. -/
def Zod.parse : Zod → JsValue → Option JsValue
  | .string, .str s => some (.str s)
  | .string, _ => none
  | .number, .num n => if n.isNaN then none else some (.num n)
  | .number, _ => none
  | .boolean, .bool b => some (.bool b)
  | .boolean, _ => none
  | .enum values, .str s => if values.contains s then some (.str s) else none
  | .enum _, _ => none
  | .array element, .arr items => (allSome (items.map (Zod.parse element))).map JsValue.arr
  | .array _, _ => none
  | .object shape, .obj props => (Zod.parseShape shape props).map JsValue.obj
  | .object _, _ => none
  | .optional _, .undefined => some .undefined
  | .optional inner, v => Zod.parse inner v
  | .describe inner _, v => Zod.parse inner v
/-- The properties of an object schema, one shape key after the other. A key is written to the
output when its parsed value is defined or the key was present in the input. -/
def Zod.parseShape : List (String × Zod) → List (String × JsValue) →
    Option (List (String × JsValue))
  | [], _ => some []
  | (k, s) :: rest, props =>
    match Zod.parse s ((props.lookup k).getD .undefined), Zod.parseShape rest props with
    | some v, some out =>
      if v.isUndefined && (props.lookup k).isNone then some out else some ((k, v) :: out)
    | _, _ => none
end

/-- The structured output parser: a schema wrapped for parsing model output. -/
structure StructuredOutputParser where
  schema : Zod

/-- The constructor `StructuredOutputParser.fromZodSchema`. -/
def StructuredOutputParser.fromZodSchema (schema : Zod) : StructuredOutputParser :=
  ⟨schema⟩

/-- The chart types of the `chartType` enumeration (`src/tool.js`, line 21). -/
def chartTypes : List String :=
  ["line", "bar", "doughnut", "bubble", "pie", "polarArea", "radar", "scatter"]

/-- The module-level `parser` of `src/tool.js`, lines 19 to 63. -/
def parser : StructuredOutputParser :=
  StructuredOutputParser.fromZodSchema
    (.object [
      ("chartType", .describe (.enum chartTypes) "type of graph"),
      ("height", .describe .number "height of the graph canvas default to 400"),
      ("width", .describe .number "width of the graph canvas default to 400"),
      ("backgroundColour", .describe .string
        "color in hexcode to use as the chart background, default to #FFFFFF"),
      ("data", .object [
        ("labels", .describe (.array .string) "x axis labels"),
        ("datasets", .describe (.array (.describe (.object [
            ("label", .describe .string "y axis label"),
            ("data", .describe (.array .number) "y axis values"),
            ("borderColor", .describe .string
              "border color in hexcode to use for the dataset"),
            ("backgroundColor", .describe (.array .string)
              "an array of background colors in hexcode to use for the dataset"),
            ("borderWidth", .describe .number "width of the border"),
            ("borderRadius", .describe .number "border radius to use for the dataset"),
            ("borderSkipped", .describe .boolean
              "if border for the dataset is skipped, should default to false")
          ]) "a single dataset object")) "an array of datasets to be used for the chart")
      ]),
      ("options", .describe (.object [
        ("indexAxis", .describe (.enum ["x", "y"])
          "This is used to indicate whether a chart should be horizontal or in vertical alignment, x is vertical and y is horizontal. Default to x"),
        ("plugins", .describe (.object [
          ("legend", .describe (.optional (.object [
            ("position", .describe (.enum ["top", "bottom", "right", "left"])
              "This is the position of the legend of the chart, default to bottom")
          ])) "This is the title object for the chart"),
          ("title", .describe (.optional (.object [
            ("display", .describe .boolean
              "This is the flag to indicate whether to show the title or not, default to true"),
            ("text", .describe .string "This is the title for the generated chart")
          ])) "This is the title object for the chart")
        ]) "An object with the plugins to use"),
        ("scales", .describe (.object [
          ("x", .describe (.object [
            ("stacked", .describe .boolean
              "Whether the x axis is stacked or not, default to false")
          ]) "x axis scale configurations"),
          ("y", .describe (.object [
            ("stacked", .describe .boolean
              "Whether the y axis is stacked or not, default to false")
          ]) "y axis scale configurations")
        ]) "configuration object for the scales")
      ]) "config options for the chart")
    ])

/-! ## String helpers of the language -/

/-- The characters removed by `String.prototype.trim`: white space and line terminators. -/
def isJsWhiteSpace (c : Char) : Bool :=
  let n := c.toNat
  (0x09 ≤ n && n ≤ 0x0D) || n == 0x20 || n == 0xA0 || n == 0x1680 ||
    (0x2000 ≤ n && n ≤ 0x200A) || n == 0x2028 || n == 0x2029 || n == 0x202F ||
    n == 0x205F || n == 0x3000 || n == 0xFEFF

/-- The method `String.prototype.trim`. -/
def jsTrim (s : String) : String :=
  ⟨((s.data.dropWhile isJsWhiteSpace).reverse.dropWhile isJsWhiteSpace).reverse⟩

mutual
/-- String conversion of a value inside a template literal. The text of a number is `n2s`. -/
def JsValue.toJsString (n2s : JsNumber → String) : JsValue → String
  | .undefined => "undefined"
  | .null => "null"
  | .bool true => "true"
  | .bool false => "false"
  | .num n => n2s n
  | .str s => s
  | .arr items => JsValue.joinItems n2s items
  | .obj _ => "[object Object]"
/-- The method `Array.prototype.join` with the default separator. -/
def JsValue.joinItems (n2s : JsNumber → String) : List JsValue → String
  | [] => ""
  | [.undefined] => ""
  | [.null] => ""
  | [v] => JsValue.toJsString n2s v
  | .undefined :: rest => "," ++ JsValue.joinItems n2s rest
  | .null :: rest => "," ++ JsValue.joinItems n2s rest
  | v :: rest => JsValue.toJsString n2s v ++ "," ++ JsValue.joinItems n2s rest
end

/-! ## Errors, events and the effect monad -/

/-- The exceptions the program can end with. -/
inductive JsError where
  /-- The exception of the output parser: model output that is absent, is not JSON or does not
  validate. -/
  | outputParserException
  /-- A plain `new Error(message)`. -/
  | error (message : String)
  /-- A failure raised inside an external collaborator. -/
  | upstream (detail : String)
  deriving DecidableEq, Repr

/-- A CSV loader over the uploaded bytes: `new CSVLoader(new Blob([buffer]))`. -/
structure CSVLoader where
  blob : List (List UInt8)
  deriving DecidableEq, Repr

/-- A loaded document (one per CSV row). -/
structure Document where
  pageContent : String
  deriving DecidableEq, Repr

/-- The client configuration `new ChatOpenAI({...})`. -/
structure ChatOpenAI where
  temperature : Nat
  modelName : String
  openAIApiKey : Option String
  deriving DecidableEq, Repr

/-- The client configuration `new OpenAIEmbeddings({...})`. -/
structure OpenAIEmbeddings where
  openAIApiKey : Option String
  deriving DecidableEq, Repr

/-- The in-memory vector store built from documents and their embeddings. -/
structure MemoryVectorStore where
  memoryVectors : List (Document × List Int)
  deriving DecidableEq, Repr

/-- The retriever `vectorStore.asRetriever({distance, k})`. -/
structure Retriever where
  vectorStore : MemoryVectorStore
  distance : Nat
  k : Nat
  deriving DecidableEq, Repr

/-- The memory `new BufferMemory({memoryKey})`. -/
structure BufferMemory where
  memoryKey : String
  deriving DecidableEq, Repr

/-- The chain `ConversationalRetrievalQAChain.fromLLM(model, retriever, {memory})`. -/
structure ConversationalRetrievalQAChain where
  llm : ChatOpenAI
  retriever : Retriever
  memory : BufferMemory
  deriving DecidableEq, Repr

/-- The canvas `new ChartJSNodeCanvas({width, height, backgroundColour})`. -/
structure ChartJSNodeCanvas where
  width : JsValue
  height : JsValue
  backgroundColour : JsValue

/-- What a render hands back: the data URL, and the configuration object as the renderer
leaves it. The renderer works on the very object it is given, so what it writes into that
object is seen by whoever reads the object afterwards. -/
structure Rendered where
  data_url : String
  configuration : JsValue

/-- A call that leaves the repository. -/
inductive Event where
  /-- The chat completion `model.predict(input)`. -/
  | predict (model : ChatOpenAI) (input : String)
  /-- The document load `loader.load()`. -/
  | load (loader : CSVLoader)
  /-- The embedding call `MemoryVectorStore.fromDocuments(documents, embeddings)`. -/
  | fromDocuments (documents : List Document) (embeddings : OpenAIEmbeddings)
  /-- The retrieval chain call `chain.call({question})`. -/
  | chainCall (chain : ConversationalRetrievalQAChain) (question : String)
  /-- The construction of the canvas. -/
  | newCanvas (width height backgroundColour : JsValue)
  /-- The render `chartJSNodeCanvas.renderToDataURL(configuration)`. -/
  | renderToDataURL (canvas : ChartJSNodeCanvas) (configuration : JsValue)
  /-- The call `prettify(html)` of the snippet generator. -/
  | prettify (html : String)

/-- A run of the program: how it ended and the external calls it made, in order. -/
structure Eff (α : Type) where
  result : Except JsError α
  trace : List Event

namespace Eff

/-- A run that returns without any external call. -/
def ret {α : Type} (a : α) : Eff α := ⟨.ok a, []⟩

/-- A run that throws without any external call. -/
def fail {α : Type} (e : JsError) : Eff α := ⟨.error e, []⟩

/-- One external call: it is recorded, and it returns or throws what the collaborator does. -/
def call {α : Type} (ev : Event) (r : Except JsError α) : Eff α := ⟨r, [ev]⟩

/-- Sequencing: the second part runs only when the first returned. -/
def andThen {α β : Type} (m : Eff α) (f : α → Eff β) : Eff β :=
  match m.result with
  | .error e => ⟨.error e, m.trace⟩
  | .ok a => ⟨(f a).result, m.trace ++ (f a).trace⟩

/-- Lifting of a computation that calls nothing. -/
def ofExcept {α : Type} (r : Except JsError α) : Eff α := ⟨r, []⟩

end Eff

instance : Monad Eff where
  pure := Eff.ret
  bind := Eff.andThen

/-! ## The external collaborators -/

/-- What the program is given from outside the repository. -/
structure Externals where
  /-- The environment variable `process.env.OPENAI_API_KEY`. -/
  openAIApiKey : Option String
  /-- The environment variable `AZURE_OPENAI_API_KEY`, which the client constructors read too. -/
  azureOpenAIApiKey : Option String
  /-- The exception of `new ChatOpenAI(fields)` when it rejects its fields for another reason
  than a missing key (for instance incomplete Azure settings). -/
  newChatOpenAIError : ChatOpenAI → Option JsError
  /-- The exception of `new OpenAIEmbeddings(fields)` when it rejects its fields for another
  reason than a missing key. -/
  newOpenAIEmbeddingsError : OpenAIEmbeddings → Option JsError
  /-- The text `parser.getFormatInstructions()`. -/
  formatInstructions : String
  /-- The JSON value the output parser reads out of a model response (fence removal and
  `JSON.parse`): `none` when the text holds no JSON. -/
  jsonOfText : String → Option JsValue
  /-- The chat completion. -/
  predict : ChatOpenAI → String → Except JsError String
  /-- The document load. -/
  load : CSVLoader → Except JsError (List Document)
  /-- The embedding of documents into a vector store. -/
  fromDocuments : List Document → OpenAIEmbeddings → Except JsError MemoryVectorStore
  /-- The retrieval chain call; the value is the response object. -/
  chainCall : ConversationalRetrievalQAChain → String → Except JsError JsValue
  /-- The exception of the canvas constructor, when it rejects its options. -/
  newCanvasError : JsValue → JsValue → JsValue → Option JsError
  /-- The render of a configuration on a canvas. -/
  renderToDataURL : ChartJSNodeCanvas → JsValue → Except JsError Rendered
  /-- The text of a number, as in `String(n)`. -/
  numberToString : JsNumber → String
  /-- The function `JSON.stringify` on a value that is not `undefined`. -/
  jsonStringify : JsValue → String
  /-- The function `prettify` of `html-prettify`. -/
  prettify : String → String

/-- An API key is found when the variable holds a text that is not empty. -/
def keyFound : Option String → Bool
  | some key => key != ""
  | none => false

/-- The constructor `new ChatOpenAI(fields)`: it throws when neither the OpenAI key nor the Azure
key is found. -/
def ChatOpenAI.new (x : Externals) (fields : ChatOpenAI) : Except JsError ChatOpenAI :=
  if !keyFound fields.openAIApiKey && !keyFound x.azureOpenAIApiKey then
    .error (.error "OpenAI or Azure OpenAI API key not found")
  else
    match x.newChatOpenAIError fields with
    | some e => .error e
    | none => .ok fields

/-- The constructor `new OpenAIEmbeddings(fields)`: it throws when neither the OpenAI key nor the
Azure key is found. -/
def OpenAIEmbeddings.new (x : Externals) (fields : OpenAIEmbeddings) :
    Except JsError OpenAIEmbeddings :=
  if !keyFound fields.openAIApiKey && !keyFound x.azureOpenAIApiKey then
    .error (.error "OpenAI or Azure OpenAI API key not found")
  else
    match x.newOpenAIEmbeddingsError fields with
    | some e => .error e
    | none => .ok fields

/-! ## The output parser -/

/-- The method `parser.parse(text)`: read the JSON out of the text and validate it against the
schema; every failure is an `OutputParserException`. -/
def StructuredOutputParser.parse (x : Externals) (p : StructuredOutputParser)
    (text : JsValue) : Eff JsValue :=
  match text with
  | .str t =>
    match x.jsonOfText t with
    | none => Eff.fail .outputParserException
    | some json =>
      match p.schema.parse json with
      | none => Eff.fail .outputParserException
      | some spec => Eff.ret spec
  | _ => Eff.fail .outputParserException

/-! ## The prompt template -/

/-- A piece of an f-string template: literal text or a named slot. -/
inductive TemplatePiece where
  | literal (text : String)
  | slot (name : String)
  deriving DecidableEq, Repr

/-- The prompt `new PromptTemplate({template, inputVariables, partialVariables})`. -/
structure PromptTemplate where
  template : List TemplatePiece
  inputVariables : List String
  partialVariables : List (String × String)
  deriving DecidableEq, Repr

/-- Interpolation of the pieces of a template with the values of its slots. -/
def interpolate (values : List (String × String)) : List TemplatePiece → Except JsError String
  | [] => .ok ""
  | .literal text :: rest =>
    match interpolate values rest with
    | .ok tail => .ok (text ++ tail)
    | .error e => .error e
  | .slot name :: rest =>
    match values.lookup name, interpolate values rest with
    | some v, .ok tail => .ok (v ++ tail)
    | none, _ => .error (.error ("Missing value for input " ++ name))
    | _, .error e => .error e

/-- The method `prompt.format(values)`: the given values take precedence over the partial
ones. -/
def PromptTemplate.format (p : PromptTemplate) (values : List (String × String)) :
    Except JsError String :=
  interpolate (values ++ p.partialVariables) p.template

/-! ## The chart generator -/

/-- The instance fields set by the constructor of `GrizzyAIChartGen`. -/
structure GrizzyAIChartGen where
  model : ChatOpenAI
  embeddings : OpenAIEmbeddings
  prompt : PromptTemplate
  deriving DecidableEq, Repr

/-- What a successful generation returns: `{ data_url, code }`. -/
structure ChartResult where
  data_url : String
  code : String
  deriving DecidableEq, Repr

/-- A file as the upload middleware hands it over; only these two fields are read. -/
structure UploadedFile where
  mimetype : String
  buffer : List UInt8
  deriving DecidableEq, Repr

namespace GrizzyAIChartGen

/-- The constructor (`src/tool.js`, lines 66 to 83). It throws when the constructor of one of
the two clients throws. -/
def new (x : Externals) : Except JsError GrizzyAIChartGen := do
  let model ← ChatOpenAI.new x
    { temperature := 0, modelName := "gpt-3.5-turbo-16k", openAIApiKey := x.openAIApiKey }
  let embeddings ← OpenAIEmbeddings.new x { openAIApiKey := x.openAIApiKey }
  let prompt : PromptTemplate :=
    { template := [.literal "Answer the users question as best as possible.\n",
        .slot "format_instructions", .literal "\n", .slot "question"]
      inputVariables := ["question"]
      partialVariables := [("format_instructions", x.formatInstructions)] }
  pure { model := model, embeddings := embeddings, prompt := prompt }

/-- The text inside the template literal of `generate_chartjs_code`, before `.trim()`. -/
def chartjs_template (x : Externals) (context backgroundColor height width : JsValue) : String :=
  "\n            <!--This code was generated by GrizzyAi chart generator (https://charts.grizzy-deploy.com)-->\n        <div>\n            <canvas id=\"myChart\" height=\""
    ++ height.toJsString x.numberToString
    ++ "\" width=\""
    ++ width.toJsString x.numberToString
    ++ "\" style=\"background-color:"
    ++ backgroundColor.toJsString x.numberToString
    ++ "\"></canvas>\n        </div>\n    \n        <script src=\"https://cdn.jsdelivr.net/npm/chart.js\"></script>\n    \n        <script>\n            const ctx = document.getElementById(\x27myChart\x27);\n            new Chart(ctx, "
    ++ (match context with
        | .undefined => "undefined"
        | c => x.jsonStringify c)
    ++ ");\n        </script>\n        "

/-- The method `generate_chartjs_code` (lines 85 to 101). -/
def generate_chartjs_code (x : Externals) (_self : GrizzyAIChartGen)
    (context backgroundColor height width : JsValue) : Eff String :=
  let html := jsTrim (chartjs_template x context backgroundColor height width)
  Eff.call (.prettify html) (.ok (x.prettify html))

/-- The method `generate_chart_from_raw_gpt_response` (lines 103 to 128). -/
def generate_chart_from_raw_gpt_response (x : Externals) (self : GrizzyAIChartGen)
    (response : JsValue) : Eff ChartResult := do
  let parsed ← parser.parse x response
  let chartType := parsed.get "chartType"
  let height := parsed.get "height"
  let width := parsed.get "width"
  let backgroundColour := parsed.get "backgroundColour"
  let graph_generated := parsed.restProps ["chartType", "height", "width", "backgroundColour"]
  let configuration := JsValue.obj (JsValue.spread [("type", chartType)] graph_generated)
  let chartJSNodeCanvas ← Eff.call (.newCanvas width height backgroundColour)
    (match x.newCanvasError width height backgroundColour with
     | some e => .error e
     | none => .ok (ChartJSNodeCanvas.mk width height backgroundColour))
  let rendered ← Eff.call (.renderToDataURL chartJSNodeCanvas configuration)
    (x.renderToDataURL chartJSNodeCanvas configuration)
  let data_url := rendered.data_url
  let configuration := rendered.configuration
  let code ← self.generate_chartjs_code x configuration backgroundColour height width
  pure { data_url := data_url, code := code }

/-- The private method `#_generate_graph_from_description` (lines 130 to 136). -/
def _generate_graph_from_description (x : Externals) (self : GrizzyAIChartGen)
    (user_prompt : String) : Eff ChartResult := do
  let input ← Eff.ofExcept (self.prompt.format [("question", user_prompt)])
  let text ← Eff.call (.predict self.model input) (x.predict self.model input)
  self.generate_chart_from_raw_gpt_response x (.str text)

/-- The private method `#_generic_document_loader` (lines 138 to 157). -/
def _generic_document_loader (x : Externals) (self : GrizzyAIChartGen)
    (query : String) (loader : CSVLoader) : Eff ChartResult := do
  let documents ← Eff.call (.load loader) (x.load loader)
  let vectorStore ← Eff.call (.fromDocuments documents self.embeddings)
    (x.fromDocuments documents self.embeddings)
  let chain : ConversationalRetrievalQAChain :=
    { llm := self.model
      retriever := { vectorStore := vectorStore, distance := 0, k := 100 }
      memory := { memoryKey := "chat_history" } }
  let question ← Eff.ofExcept (self.prompt.format [("question", query)])
  let response ← Eff.call (.chainCall chain question) (x.chainCall chain question)
  self.generate_chart_from_raw_gpt_response x (response.optionalGet "text")

/-- The method `generate_embeddings_and_generate_graph_from_documents` (lines 159 to 172).
An absent file is `none`. -/
def generate_embeddings_and_generate_graph_from_documents (x : Externals)
    (self : GrizzyAIChartGen) (query : String) (file : Option UploadedFile) :
    Eff ChartResult :=
  match file with
  | none => self._generate_graph_from_description x query
  | some file =>
    if file.mimetype = "text/csv" then
      self._generic_document_loader x query { blob := [file.buffer] }
    else
      Eff.fail (.error "Unsupported file format")

end GrizzyAIChartGen

/-- The exported function of the module (lines 179 to 182): a fresh generator per call. When
the constructor throws, nothing else runs. -/
def generate_embeddings_and_generate_graph_from_documents (x : Externals) (prompt : String)
    (file : Option UploadedFile) : Eff ChartResult :=
  match GrizzyAIChartGen.new x with
  | .error e => Eff.fail e
  | .ok chart => chart.generate_embeddings_and_generate_graph_from_documents x prompt file

/-! ## Parts of the schema -/

/-- The schema of one dataset (`src/tool.js`, lines 28 to 36). -/
def datasetSchema : Zod :=
  .describe (.object [
    ("label", .describe .string "y axis label"),
    ("data", .describe (.array .number) "y axis values"),
    ("borderColor", .describe .string "border color in hexcode to use for the dataset"),
    ("backgroundColor", .describe (.array .string)
      "an array of background colors in hexcode to use for the dataset"),
    ("borderWidth", .describe .number "width of the border"),
    ("borderRadius", .describe .number "border radius to use for the dataset"),
    ("borderSkipped", .describe .boolean
      "if border for the dataset is skipped, should default to false")
  ]) "a single dataset object"

/-- The schema of the `data` field (lines 25 to 38). -/
def dataSchema : Zod :=
  .object [
    ("labels", .describe (.array .string) "x axis labels"),
    ("datasets", .describe (.array datasetSchema) "an array of datasets to be used for the chart")
  ]

/-- The schema of the `options` field (lines 40 to 61). -/
def optionsSchema : Zod :=
  .describe (.object [
    ("indexAxis", .describe (.enum ["x", "y"])
      "This is used to indicate whether a chart should be horizontal or in vertical alignment, x is vertical and y is horizontal. Default to x"),
    ("plugins", .describe (.object [
      ("legend", .describe (.optional (.object [
        ("position", .describe (.enum ["top", "bottom", "right", "left"])
          "This is the position of the legend of the chart, default to bottom")
      ])) "This is the title object for the chart"),
      ("title", .describe (.optional (.object [
        ("display", .describe .boolean
          "This is the flag to indicate whether to show the title or not, default to true"),
        ("text", .describe .string "This is the title for the generated chart")
      ])) "This is the title object for the chart")
    ]) "An object with the plugins to use"),
    ("scales", .describe (.object [
      ("x", .describe (.object [
        ("stacked", .describe .boolean "Whether the x axis is stacked or not, default to false")
      ]) "x axis scale configurations"),
      ("y", .describe (.object [
        ("stacked", .describe .boolean "Whether the y axis is stacked or not, default to false")
      ]) "y axis scale configurations")
    ]) "configuration object for the scales")
  ]) "config options for the chart"

/-! ## Vocabulary of the claims -/

/-- Whether a schema is `.optional()`, looking through descriptions. -/
def Zod.isOptional : Zod → Bool
  | .optional _ => true
  | .describe inner _ => inner.isOptional
  | _ => false

/-- A payload omits a required field of a schema: a key of an object schema whose schema is not
optional is absent from the object found at that place of the payload. The place may be the
payload itself, a field of it, an element of an array, or the content of an optional field that
is present. -/
inductive Zod.Omits : Zod → JsValue → Prop where
  | key {shape : List (String × Zod)} {props : List (String × JsValue)} (k : String) (s : Zod) :
      (k, s) ∈ shape → s.isOptional = false → (JsValue.obj props).has k = false →
      Zod.Omits (.object shape) (.obj props)
  | field {shape : List (String × Zod)} {props : List (String × JsValue)} (k : String)
      (s : Zod) :
      (k, s) ∈ shape → Zod.Omits s ((JsValue.obj props).get k) →
      Zod.Omits (.object shape) (.obj props)
  | item {e : Zod} {items : List JsValue} (v : JsValue) :
      v ∈ items → Zod.Omits e v → Zod.Omits (.array e) (.arr items)
  | optional {i : Zod} {v : JsValue} : Zod.Omits i v → Zod.Omits (.optional i) v
  | describe {i : Zod} {d : String} {v : JsValue} : Zod.Omits i v → Zod.Omits (.describe i d) v

/-- A number that is a positive integer. -/
def JsNumber.isPositiveInteger : JsNumber → Bool
  | .finite q => decide (0 < q) && decide (q.den = 1)
  | _ => false

/-- A value that is a positive integer. -/
def JsValue.isPositiveInteger : JsValue → Bool
  | .num n => n.isPositiveInteger
  | _ => false

/-- A hexadecimal digit. -/
def isHexDigit (c : Char) : Bool :=
  c.isDigit || (c.toNat ≥ 97 && c.toNat ≤ 102) || (c.toNat ≥ 65 && c.toNat ≤ 70)

/-- A syntactically valid hex colour: `#` followed by 3, 4, 6 or 8 hexadecimal digits. -/
def isHexColour (s : String) : Bool :=
  match s.data with
  | '#' :: digits => [3, 4, 6, 8].contains digits.length && digits.all isHexDigit
  | _ => false

/-- A value that is a hex colour string. -/
def JsValue.isHexColour : JsValue → Bool
  | .str s => GrizzyCharts.isHexColour s
  | _ => false

/-- The elements of an array value. -/
def JsValue.items : JsValue → List JsValue
  | .arr items => items
  | _ => []

/-- Every dataset of a chart spec has as many values as the spec has labels. -/
def datasetLengthsMatch (spec : JsValue) : Prop :=
  ∀ d ∈ ((spec.get "data").get "datasets").items,
    (d.get "data").items.length = ((spec.get "data").get "labels").items.length

/-- Every colour field of a chart spec is a hex colour string. -/
def coloursAreHex (spec : JsValue) : Prop :=
  (spec.get "backgroundColour").isHexColour = true ∧
  ∀ d ∈ ((spec.get "data").get "datasets").items,
    (d.get "borderColor").isHexColour = true ∧
    ∀ c ∈ (d.get "backgroundColor").items, c.isHexColour = true

/-- The calls of the document path: document load, embedding, retrieval chain. -/
def Event.isDocumentCall : Event → Bool
  | .load _ => true
  | .fromDocuments _ _ => true
  | .chainCall _ _ => true
  | _ => false

/-- The chat completion calls. -/
def Event.isPredict : Event → Bool
  | .predict _ _ => true
  | _ => false

/-- The calls of the renderer (canvas construction, render) and of the snippet generator. -/
def Event.isRenderCall : Event → Bool
  | .newCanvas _ _ _ => true
  | .renderToDataURL _ _ => true
  | .prettify _ => true
  | _ => false

/-! ## Sample payloads and a test double for the collaborators -/

/-- A dataset object with the given values and colours. -/
def sampleDataset (values : List JsValue) (borderColor : JsValue)
    (backgroundColor : List JsValue) : JsValue :=
  .obj [("label", .str "Totals"), ("data", .arr values), ("borderColor", borderColor),
    ("backgroundColor", .arr backgroundColor), ("borderWidth", .num (.finite 1)),
    ("borderRadius", .num (.finite 0)), ("borderSkipped", .bool false)]

/-- An options object with every field present. -/
def sampleOptions : JsValue :=
  .obj [("indexAxis", .str "x"),
    ("plugins", .obj [("legend", .obj [("position", .str "bottom")]),
      ("title", .obj [("display", .bool true), ("text", .str "Totals")])]),
    ("scales", .obj [("x", .obj [("stacked", .bool false)]),
      ("y", .obj [("stacked", .bool false)])])]

/-- A payload with every top-level field present. -/
def samplePayload (chartType height width backgroundColour : JsValue) (labels : List JsValue)
    (datasets : List JsValue) : JsValue :=
  .obj [("chartType", chartType), ("height", height), ("width", width),
    ("backgroundColour", backgroundColour),
    ("data", .obj [("labels", .arr labels), ("datasets", .arr datasets)]),
    ("options", sampleOptions)]

/-- The payload of the scenario "bar chart of A=1, B=2, C=3 titled Totals". -/
def totalsPayload : JsValue :=
  samplePayload (.str "bar") (.num (.finite 400)) (.num (.finite 400)) (.str "#FFFFFF")
    [.str "A", .str "B", .str "C"]
    [sampleDataset [.num (.finite 1), .num (.finite 2), .num (.finite 3)] (.str "#36A2EB")
      [.str "#36A2EB"]]

/-- A payload with three labels and a single value. -/
def mismatchedPayload : JsValue :=
  samplePayload (.str "bar") (.num (.finite 400)) (.num (.finite 400)) (.str "#FFFFFF")
    [.str "A", .str "B", .str "C"]
    [sampleDataset [.num (.finite 1)] (.str "#36A2EB") [.str "#36A2EB"]]

/-- A payload with height zero and width minus three halves. -/
def badSizePayload : JsValue :=
  samplePayload (.str "bar") (.num (.finite 0)) (.num (.finite (-3 / 2))) (.str "#FFFFFF")
    [.str "A", .str "B", .str "C"]
    [sampleDataset [.num (.finite 1), .num (.finite 2), .num (.finite 3)] (.str "#36A2EB")
      [.str "#36A2EB"]]

/-- A payload whose colours are colour names, not hex codes. -/
def namedColourPayload : JsValue :=
  samplePayload (.str "bar") (.num (.finite 400)) (.num (.finite 400)) (.str "white")
    [.str "A", .str "B", .str "C"]
    [sampleDataset [.num (.finite 1), .num (.finite 2), .num (.finite 3)] (.str "blue")
      [.str "rgb(54, 162, 235)"]]

/-- A payload of an unknown chart type. -/
def histogramPayload : JsValue :=
  samplePayload (.str "histogram") (.num (.finite 400)) (.num (.finite 400)) (.str "#FFFFFF")
    [.str "A", .str "B", .str "C"]
    [sampleDataset [.num (.finite 1), .num (.finite 2), .num (.finite 3)] (.str "#36A2EB")
      [.str "#36A2EB"]]

/-- A payload without the `height` field. -/
def noHeightPayload : JsValue :=
  .obj [("chartType", .str "bar"), ("width", .num (.finite 400)),
    ("backgroundColour", .str "#FFFFFF"),
    ("data", .obj [("labels", .arr [.str "A"]),
      ("datasets", .arr [sampleDataset [.num (.finite 1)] (.str "#36A2EB") [.str "#36A2EB"]])]),
    ("options", sampleOptions)]

/-- A payload whose height is a string. -/
def textHeightPayload : JsValue :=
  samplePayload (.str "bar") (.str "400") (.num (.finite 400)) (.str "#FFFFFF")
    [.str "A"] [sampleDataset [.num (.finite 1)] (.str "#36A2EB") [.str "#36A2EB"]]

/-- A payload whose background colour is a number. -/
def numericColourPayload : JsValue :=
  samplePayload (.str "bar") (.num (.finite 400)) (.num (.finite 400)) (.num (.finite 0))
    [.str "A"] [sampleDataset [.num (.finite 1)] (.str "#36A2EB") [.str "#36A2EB"]]

/-- A model response: the JSON text of the scenario payload. -/
def totalsResponse : String :=
  "\x7b\"chartType\":\"bar\",\"height\":400,\"width\":400,\"backgroundColour\":\"#FFFFFF\",\"data\":\x7b\"labels\":[\"A\",\"B\",\"C\"],\"datasets\":[\x7b\"label\":\"Totals\",\"data\":[1,2,3],\"borderColor\":\"#36A2EB\",\"backgroundColor\":[\"#36A2EB\"],\"borderWidth\":1,\"borderRadius\":0,\"borderSkipped\":false\x7d]\x7d,\"options\":\x7b\"indexAxis\":\"x\",\"plugins\":\x7b\"legend\":\x7b\"position\":\"bottom\"\x7d,\"title\":\x7b\"display\":true,\"text\":\"Totals\"\x7d\x7d,\"scales\":\x7b\"x\":\x7b\"stacked\":false\x7d,\"y\":\x7b\"stacked\":false\x7d\x7d\x7d\x7d"

/-- A model response: the JSON text of the payload with three labels and one value. -/
def mismatchedResponse : String :=
  "\x7b\"chartType\":\"bar\",\"height\":400,\"width\":400,\"backgroundColour\":\"#FFFFFF\",\"data\":\x7b\"labels\":[\"A\",\"B\",\"C\"],\"datasets\":[\x7b\"label\":\"Totals\",\"data\":[1],\"borderColor\":\"#36A2EB\",\"backgroundColor\":[\"#36A2EB\"],\"borderWidth\":1,\"borderRadius\":0,\"borderSkipped\":false\x7d]\x7d,\"options\":\x7b\"indexAxis\":\"x\",\"plugins\":\x7b\"legend\":\x7b\"position\":\"bottom\"\x7d,\"title\":\x7b\"display\":true,\"text\":\"Totals\"\x7d\x7d,\"scales\":\x7b\"x\":\x7b\"stacked\":false\x7d,\"y\":\x7b\"stacked\":false\x7d\x7d\x7d\x7d"

/-- A model response: the JSON text of the payload with height zero and width minus three halves. -/
def badSizeResponse : String :=
  "\x7b\"chartType\":\"bar\",\"height\":0,\"width\":-1.5,\"backgroundColour\":\"#FFFFFF\",\"data\":\x7b\"labels\":[\"A\",\"B\",\"C\"],\"datasets\":[\x7b\"label\":\"Totals\",\"data\":[1,2,3],\"borderColor\":\"#36A2EB\",\"backgroundColor\":[\"#36A2EB\"],\"borderWidth\":1,\"borderRadius\":0,\"borderSkipped\":false\x7d]\x7d,\"options\":\x7b\"indexAxis\":\"x\",\"plugins\":\x7b\"legend\":\x7b\"position\":\"bottom\"\x7d,\"title\":\x7b\"display\":true,\"text\":\"Totals\"\x7d\x7d,\"scales\":\x7b\"x\":\x7b\"stacked\":false\x7d,\"y\":\x7b\"stacked\":false\x7d\x7d\x7d\x7d"

/-- A model response: the JSON text of the payload with colour names. -/
def namedColourResponse : String :=
  "\x7b\"chartType\":\"bar\",\"height\":400,\"width\":400,\"backgroundColour\":\"white\",\"data\":\x7b\"labels\":[\"A\",\"B\",\"C\"],\"datasets\":[\x7b\"label\":\"Totals\",\"data\":[1,2,3],\"borderColor\":\"blue\",\"backgroundColor\":[\"rgb(54, 162, 235)\"],\"borderWidth\":1,\"borderRadius\":0,\"borderSkipped\":false\x7d]\x7d,\"options\":\x7b\"indexAxis\":\"x\",\"plugins\":\x7b\"legend\":\x7b\"position\":\"bottom\"\x7d,\"title\":\x7b\"display\":true,\"text\":\"Totals\"\x7d\x7d,\"scales\":\x7b\"x\":\x7b\"stacked\":false\x7d,\"y\":\x7b\"stacked\":false\x7d\x7d\x7d\x7d"

/-- A model response: the JSON text of the payload of an unknown chart type. -/
def histogramResponse : String :=
  "\x7b\"chartType\":\"histogram\",\"height\":400,\"width\":400,\"backgroundColour\":\"#FFFFFF\",\"data\":\x7b\"labels\":[\"A\",\"B\",\"C\"],\"datasets\":[\x7b\"label\":\"Totals\",\"data\":[1,2,3],\"borderColor\":\"#36A2EB\",\"backgroundColor\":[\"#36A2EB\"],\"borderWidth\":1,\"borderRadius\":0,\"borderSkipped\":false\x7d]\x7d,\"options\":\x7b\"indexAxis\":\"x\",\"plugins\":\x7b\"legend\":\x7b\"position\":\"bottom\"\x7d,\"title\":\x7b\"display\":true,\"text\":\"Totals\"\x7d\x7d,\"scales\":\x7b\"x\":\x7b\"stacked\":false\x7d,\"y\":\x7b\"stacked\":false\x7d\x7d\x7d\x7d"

/-- A model response: the JSON text of the payload without `height`. -/
def noHeightResponse : String :=
  "\x7b\"chartType\":\"bar\",\"width\":400,\"backgroundColour\":\"#FFFFFF\",\"data\":\x7b\"labels\":[\"A\"],\"datasets\":[\x7b\"label\":\"Totals\",\"data\":[1],\"borderColor\":\"#36A2EB\",\"backgroundColor\":[\"#36A2EB\"],\"borderWidth\":1,\"borderRadius\":0,\"borderSkipped\":false\x7d]\x7d,\"options\":\x7b\"indexAxis\":\"x\",\"plugins\":\x7b\"legend\":\x7b\"position\":\"bottom\"\x7d,\"title\":\x7b\"display\":true,\"text\":\"Totals\"\x7d\x7d,\"scales\":\x7b\"x\":\x7b\"stacked\":false\x7d,\"y\":\x7b\"stacked\":false\x7d\x7d\x7d\x7d"

/-- A model response: the JSON text of the payload whose height is a string. -/
def textHeightResponse : String :=
  "\x7b\"chartType\":\"bar\",\"height\":\"400\",\"width\":400,\"backgroundColour\":\"#FFFFFF\",\"data\":\x7b\"labels\":[\"A\"],\"datasets\":[\x7b\"label\":\"Totals\",\"data\":[1],\"borderColor\":\"#36A2EB\",\"backgroundColor\":[\"#36A2EB\"],\"borderWidth\":1,\"borderRadius\":0,\"borderSkipped\":false\x7d]\x7d,\"options\":\x7b\"indexAxis\":\"x\",\"plugins\":\x7b\"legend\":\x7b\"position\":\"bottom\"\x7d,\"title\":\x7b\"display\":true,\"text\":\"Totals\"\x7d\x7d,\"scales\":\x7b\"x\":\x7b\"stacked\":false\x7d,\"y\":\x7b\"stacked\":false\x7d\x7d\x7d\x7d"

/-- A model response: the JSON text of the payload whose background colour is a number. -/
def numericColourResponse : String :=
  "\x7b\"chartType\":\"bar\",\"height\":400,\"width\":400,\"backgroundColour\":0,\"data\":\x7b\"labels\":[\"A\"],\"datasets\":[\x7b\"label\":\"Totals\",\"data\":[1],\"borderColor\":\"#36A2EB\",\"backgroundColor\":[\"#36A2EB\"],\"borderWidth\":1,\"borderRadius\":0,\"borderSkipped\":false\x7d]\x7d,\"options\":\x7b\"indexAxis\":\"x\",\"plugins\":\x7b\"legend\":\x7b\"position\":\"bottom\"\x7d,\"title\":\x7b\"display\":true,\"text\":\"Totals\"\x7d\x7d,\"scales\":\x7b\"x\":\x7b\"stacked\":false\x7d,\"y\":\x7b\"stacked\":false\x7d\x7d\x7d\x7d"

/-- The sample model responses and the JSON value each one carries. -/
def sampleResponses : List (String × JsValue) :=
  [(totalsResponse, totalsPayload),
    (mismatchedResponse, mismatchedPayload),
    (badSizeResponse, badSizePayload),
    (namedColourResponse, namedColourPayload),
    (histogramResponse, histogramPayload),
    (noHeightResponse, noHeightPayload),
    (textHeightResponse, textHeightPayload),
    (numericColourResponse, numericColourPayload)]

/-- The text of a number in the test double: an integer in decimal digits, any other finite
number as a fraction. -/
def sampleNumberText : JsNumber → String
  | .finite q => toString q.num ++ (if q.den = 1 then "" else "/" ++ toString q.den)
  | .infinity false => "Infinity"
  | .infinity true => "-Infinity"
  | .nan => "NaN"

/-- The digit of a number below sixteen. -/
def hexDigit (n : Nat) : Char :=
  if n < 10 then Char.ofNat (48 + n) else Char.ofNat (87 + n)

/-- The characters of a string inside a JSON text: the quote, the backslash and the control
characters are escaped. -/
def jsonEscape : List Char → List Char
  | [] => []
  | c :: rest =>
    (if c.toNat = 34 then [Char.ofNat 92, Char.ofNat 34]
     else if c.toNat = 92 then [Char.ofNat 92, Char.ofNat 92]
     else if c.toNat = 10 then [Char.ofNat 92, 'n']
     else if c.toNat = 13 then [Char.ofNat 92, 'r']
     else if c.toNat = 9 then [Char.ofNat 92, 't']
     else if c.toNat = 8 then [Char.ofNat 92, 'b']
     else if c.toNat = 12 then [Char.ofNat 92, 'f']
     else if c.toNat < 32 then
       [Char.ofNat 92, 'u', '0', '0', hexDigit (c.toNat / 16), hexDigit (c.toNat % 16)]
     else [c]) ++ jsonEscape rest

/-- A string as a JSON text. -/
def jsonQuote (s : String) : String :=
  ⟨Char.ofNat 34 :: jsonEscape s.data ++ [Char.ofNat 34]⟩

mutual
/-- The JSON text of a value, for the test double: the serialisation `JSON.stringify` makes of a
value built from JSON values. -/
def JsValue.stringify : JsValue → String
  | .undefined => "null"
  | .null => "null"
  | .bool true => "true"
  | .bool false => "false"
  | .num (.finite q) => sampleNumberText (.finite q)
  | .num _ => "null"
  | .str s => jsonQuote s
  | .arr items => "[" ++ ",".intercalate (JsValue.stringifyItems items) ++ "]"
  | .obj props => "\x7b" ++ ",".intercalate (JsValue.stringifyProps props) ++ "\x7d"
/-- The JSON texts of the elements of an array. -/
def JsValue.stringifyItems : List JsValue → List String
  | [] => []
  | v :: rest => JsValue.stringify v :: JsValue.stringifyItems rest
/-- The JSON texts of the properties of an object; a property that is `undefined` is left
out. -/
def JsValue.stringifyProps : List (String × JsValue) → List String
  | [] => []
  | (_, .undefined) :: rest => JsValue.stringifyProps rest
  | (k, v) :: rest => (jsonQuote k ++ ":" ++ JsValue.stringify v) :: JsValue.stringifyProps rest
end

/-- A renderer that writes into the configuration it is given, as the canvas library does before
it draws: `options.responsive` and `options.animation` are set to `false`. -/
def withoutAnimation (configuration : JsValue) : JsValue :=
  match configuration with
  | .obj props =>
    .obj (JsValue.setProp "options"
      (.obj (JsValue.setProp "animation" (.bool false)
        (JsValue.setProp "responsive" (.bool false)
          (match configuration.get "options" with
           | .obj options => options
           | _ => []))))
      props)
  | v => v

/-- A test double: a model response reads as the JSON value `sampleResponses` gives for it, the
model answers `reply`, the renderer leaves the configuration as the canvas library does, and
every other collaborator succeeds with a fixed value. -/
def testDouble (reply : String) : Externals where
  openAIApiKey := some "test-key"
  azureOpenAIApiKey := none
  newChatOpenAIError := fun _ => none
  newOpenAIEmbeddingsError := fun _ => none
  formatInstructions := "Return a JSON object that follows the chart schema."
  jsonOfText := fun t => sampleResponses.lookup t
  predict := fun _ _ => .ok reply
  load := fun _ => .ok [⟨"A: 1"⟩, ⟨"B: 2"⟩]
  fromDocuments := fun documents _ => .ok ⟨documents.map (fun d => (d, [0]))⟩
  chainCall := fun _ _ => .ok (.obj [("text", .str reply)])
  newCanvasError := fun _ _ _ => none
  renderToDataURL := fun _ configuration =>
    .ok ⟨"data:image/png;base64,AAAA", withoutAnimation configuration⟩
  numberToString := sampleNumberText
  jsonStringify := JsValue.stringify
  prettify := fun html => html

/-- The test double with no API key in the environment. -/
def keylessDouble (reply : String) : Externals :=
  { testDouble reply with openAIApiKey := none }

/-- The generator the constructor builds in the test double. -/
def testGenerator : GrizzyAIChartGen where
  model := { temperature := 0, modelName := "gpt-3.5-turbo-16k", openAIApiKey := some "test-key" }
  embeddings := { openAIApiKey := some "test-key" }
  prompt :=
    { template := [.literal "Answer the users question as best as possible.\n",
        .slot "format_instructions", .literal "\n", .slot "question"]
      inputVariables := ["question"]
      partialVariables :=
        [("format_instructions", "Return a JSON object that follows the chart schema.")] }

/-- The snippet text for the configuration built from the scenario payload. -/
def builtSnippet : String :=
  "<!--This code was generated by GrizzyAi chart generator (https://charts.grizzy-deploy.com)-->\n        <div>\n            <canvas id=\"myChart\" height=\"400\" width=\"400\" style=\"background-color:#FFFFFF\"></canvas>\n        </div>\n    \n        <script src=\"https://cdn.jsdelivr.net/npm/chart.js\"></script>\n    \n        <script>\n            const ctx = document.getElementById(\x27myChart\x27);\n            new Chart(ctx, \x7b\"type\":\"bar\",\"data\":\x7b\"labels\":[\"A\",\"B\",\"C\"],\"datasets\":[\x7b\"label\":\"Totals\",\"data\":[1,2,3],\"borderColor\":\"#36A2EB\",\"backgroundColor\":[\"#36A2EB\"],\"borderWidth\":1,\"borderRadius\":0,\"borderSkipped\":false\x7d]\x7d,\"options\":\x7b\"indexAxis\":\"x\",\"plugins\":\x7b\"legend\":\x7b\"position\":\"bottom\"\x7d,\"title\":\x7b\"display\":true,\"text\":\"Totals\"\x7d\x7d,\"scales\":\x7b\"x\":\x7b\"stacked\":false\x7d,\"y\":\x7b\"stacked\":false\x7d\x7d\x7d\x7d);\n        </script>"

/-- The snippet text for that configuration after the canvas library has written into it. -/
def renderedSnippet : String :=
  "<!--This code was generated by GrizzyAi chart generator (https://charts.grizzy-deploy.com)-->\n        <div>\n            <canvas id=\"myChart\" height=\"400\" width=\"400\" style=\"background-color:#FFFFFF\"></canvas>\n        </div>\n    \n        <script src=\"https://cdn.jsdelivr.net/npm/chart.js\"></script>\n    \n        <script>\n            const ctx = document.getElementById(\x27myChart\x27);\n            new Chart(ctx, \x7b\"type\":\"bar\",\"data\":\x7b\"labels\":[\"A\",\"B\",\"C\"],\"datasets\":[\x7b\"label\":\"Totals\",\"data\":[1,2,3],\"borderColor\":\"#36A2EB\",\"backgroundColor\":[\"#36A2EB\"],\"borderWidth\":1,\"borderRadius\":0,\"borderSkipped\":false\x7d]\x7d,\"options\":\x7b\"indexAxis\":\"x\",\"plugins\":\x7b\"legend\":\x7b\"position\":\"bottom\"\x7d,\"title\":\x7b\"display\":true,\"text\":\"Totals\"\x7d\x7d,\"scales\":\x7b\"x\":\x7b\"stacked\":false\x7d,\"y\":\x7b\"stacked\":false\x7d\x7d,\"responsive\":false,\"animation\":false\x7d\x7d);\n        </script>"


set_option maxRecDepth 20000

theorem allSome_eq_some {α : Type} (l : List (Option α)) (out : List α) :
    allSome l = some out ↔ l = out.map some := by
  induction l generalizing out with
  | nil => cases out <;> simp [allSome]
  | cons a rest ih =>
    cases a with
    | none => cases out <;> simp [allSome]
    | some a =>
      cases h : allSome rest with
      | none =>
        cases out with
        | nil => simp [allSome, h]
        | cons b out =>
          simp only [allSome, h, List.map_cons, List.cons.injEq, Option.some.injEq]
          constructor
          · intro h'; cases h'
          · rintro ⟨_, h'⟩
            rw [(ih out).mpr h'] at h; cases h
      | some as =>
        have := (ih as).mp h
        subst this
        cases out with
        | nil => simp [allSome, h]
        | cons b out =>
          simp [allSome, h]
          intro _
          constructor
          · intro h'; rw [h']
          · intro h'; exact List.map_injective_iff.mpr (Option.some_injective _) h'

theorem Zod.parse_describe (i : Zod) (d : String) (v : JsValue) :
    (Zod.describe i d).parse v = i.parse v := by
  simp [Zod.parse]

theorem Zod.parse_string_eq_some (v out : JsValue) :
    Zod.string.parse v = some out ↔ ∃ s, v = .str s ∧ out = .str s := by
  cases v <;> simp [Zod.parse]
  exact eq_comm

theorem Zod.parse_number_eq_some (v out : JsValue) :
    Zod.number.parse v = some out ↔ ∃ n, v = .num n ∧ n.isNaN = false ∧ out = .num n := by
  cases v <;> simp [Zod.parse]
  intro _; exact eq_comm

theorem Zod.parse_boolean_eq_some (v out : JsValue) :
    Zod.boolean.parse v = some out ↔ ∃ b, v = .bool b ∧ out = .bool b := by
  cases v <;> simp [Zod.parse]
  exact eq_comm

theorem Zod.parse_enum_eq_some (values : List String) (v out : JsValue) :
    (Zod.enum values).parse v = some out ↔ ∃ s, v = .str s ∧ s ∈ values ∧ out = .str s := by
  cases v <;> simp [Zod.parse]
  intro _; exact eq_comm

theorem Zod.parse_array_eq_some (e : Zod) (v out : JsValue) :
    (Zod.array e).parse v = some out ↔
      ∃ items outs, v = .arr items ∧ items.map e.parse = outs.map some ∧ out = .arr outs := by
  cases v <;> simp [Zod.parse, allSome_eq_some]
  constructor
  · rintro ⟨a, h, rfl⟩; exact ⟨a, h, rfl⟩
  · rintro ⟨a, h, rfl⟩; exact ⟨a, h, rfl⟩

theorem Zod.parse_object_eq_some (shape : List (String × Zod)) (v out : JsValue) :
    (Zod.object shape).parse v = some out ↔
      ∃ props outs, v = .obj props ∧ Zod.parseShape shape props = some outs ∧ out = .obj outs := by
  cases v <;> simp [Zod.parse]
  constructor
  · rintro ⟨a, h, rfl⟩; exact ⟨a, h, rfl⟩
  · rintro ⟨a, h, rfl⟩; exact ⟨a, h, rfl⟩

theorem Zod.parse_optional_eq_some (i : Zod) (v out : JsValue) :
    (Zod.optional i).parse v = some out ↔
      (v = .undefined ∧ out = .undefined) ∨ (v ≠ .undefined ∧ i.parse v = some out) := by
  cases v <;> simp [Zod.parse]
  exact eq_comm

theorem Zod.parseShape_nil (props : List (String × JsValue)) :
    Zod.parseShape [] props = some [] := by
  simp [Zod.parseShape]

theorem Zod.parse_defined : (s : Zod) → (v out : JsValue) → s.isOptional = false →
    s.parse v = some out → out.isUndefined = false
  | .string, v, out, _, h => by
    obtain ⟨_, _, rfl⟩ := (Zod.parse_string_eq_some v out).mp h; rfl
  | .number, v, out, _, h => by
    obtain ⟨_, _, _, rfl⟩ := (Zod.parse_number_eq_some v out).mp h; rfl
  | .boolean, v, out, _, h => by
    obtain ⟨_, _, rfl⟩ := (Zod.parse_boolean_eq_some v out).mp h; rfl
  | .enum values, v, out, _, h => by
    obtain ⟨_, _, _, rfl⟩ := (Zod.parse_enum_eq_some values v out).mp h; rfl
  | .array e, v, out, _, h => by
    obtain ⟨_, _, _, _, rfl⟩ := (Zod.parse_array_eq_some e v out).mp h; rfl
  | .object shape, v, out, _, h => by
    obtain ⟨_, _, _, _, rfl⟩ := (Zod.parse_object_eq_some shape v out).mp h; rfl
  | .optional _, _, _, hs, _ => by simp [Zod.isOptional] at hs
  | .describe i _, v, out, hs, h =>
    Zod.parse_defined i v out (by simpa [Zod.isOptional] using hs) (by simpa [Zod.parse_describe] using h)

theorem Zod.parseShape_cons_eq_some (k : String) (s : Zod) (rest : List (String × Zod))
    (props outs : List (String × JsValue)) :
    Zod.parseShape ((k, s) :: rest) props = some outs ↔
      ∃ v tail, s.parse ((JsValue.obj props).get k) = some v ∧
        Zod.parseShape rest props = some tail ∧
        outs = (if v.isUndefined && (props.lookup k).isNone then [] else [(k, v)]) ++ tail := by
  simp only [Zod.parseShape, JsValue.get]
  cases h1 : s.parse ((List.lookup k props).getD JsValue.undefined) with
  | none => simp
  | some v =>
    cases h2 : Zod.parseShape rest props with
    | none => simp
    | some tail =>
      show (if (v.isUndefined && (props.lookup k).isNone) = true then some tail
        else some ((k, v) :: tail)) = some outs ↔ _
      constructor
      · intro h
        refine ⟨v, tail, rfl, rfl, ?_⟩
        by_cases hc : (v.isUndefined && (props.lookup k).isNone) = true
        · rw [if_pos hc] at h ⊢; exact (Option.some.inj h).symm
        · rw [if_neg hc] at h ⊢; exact (Option.some.inj h).symm
      · rintro ⟨v', tail', hv, ht, rfl⟩
        cases hv; cases ht
        by_cases hc : (v.isUndefined && (props.lookup k).isNone) = true
        · rw [if_pos hc, if_pos hc]; rfl
        · rw [if_neg hc, if_neg hc]; rfl

/-- A required key of an object schema: its parsed value is written under that key. -/
theorem Zod.parseShape_cons_required (k : String) (s : Zod) (rest : List (String × Zod))
    (props outs : List (String × JsValue)) (hs : s.isOptional = false) :
    Zod.parseShape ((k, s) :: rest) props = some outs ↔
      ∃ v tail, s.parse ((JsValue.obj props).get k) = some v ∧
        Zod.parseShape rest props = some tail ∧ outs = (k, v) :: tail := by
  rw [Zod.parseShape_cons_eq_some]
  constructor
  · rintro ⟨v, tail, hv, ht, rfl⟩
    refine ⟨v, tail, hv, ht, ?_⟩
    simp [Zod.parse_defined s _ v hs hv]
  · rintro ⟨v, tail, hv, ht, rfl⟩
    refine ⟨v, tail, hv, ht, ?_⟩
    simp [Zod.parse_defined s _ v hs hv]

theorem parser_schema_eq : parser.schema = .object [
    ("chartType", .describe (.enum chartTypes) "type of graph"),
    ("height", .describe .number "height of the graph canvas default to 400"),
    ("width", .describe .number "width of the graph canvas default to 400"),
    ("backgroundColour", .describe .string
      "color in hexcode to use as the chart background, default to #FFFFFF"),
    ("data", dataSchema),
    ("options", optionsSchema)] := rfl

/-- The payloads the chart schema accepts, and what it returns for them. -/
theorem parse_chart_spec (payload spec : JsValue) :
    parser.schema.parse payload = some spec ↔
      ∃ ct h w bg data options,
        (∃ props, payload = .obj props) ∧
        payload.get "chartType" = .str ct ∧ ct ∈ chartTypes ∧
        payload.get "height" = .num h ∧ h.isNaN = false ∧
        payload.get "width" = .num w ∧ w.isNaN = false ∧
        payload.get "backgroundColour" = .str bg ∧
        dataSchema.parse (payload.get "data") = some data ∧
        optionsSchema.parse (payload.get "options") = some options ∧
        spec = .obj [("chartType", .str ct), ("height", .num h), ("width", .num w),
          ("backgroundColour", .str bg), ("data", data), ("options", options)] := by
  rw [parser_schema_eq]
  have hd : dataSchema.isOptional = false := rfl
  have ho : optionsSchema.isOptional = false := rfl
  simp only [Zod.parse_object_eq_some, Zod.parseShape_cons_required, Zod.isOptional, hd, ho,
    Zod.parseShape_nil, Zod.parse_describe, Zod.parse_enum_eq_some, Zod.parse_number_eq_some,
    Zod.parse_string_eq_some]
  constructor
  · rintro ⟨props, outs, rfl, ⟨v1, t1, ⟨ct, h1, hct, rfl⟩, ⟨v2, t2, ⟨h, h2, hh, rfl⟩,
      ⟨v3, t3, ⟨w, h3, hw, rfl⟩, ⟨v4, t4, ⟨bg, h4, rfl⟩, ⟨v5, t5, h5,
      ⟨v6, t6, h6, ht6, rfl⟩, rfl⟩, rfl⟩, rfl⟩, rfl⟩, rfl⟩, rfl⟩
    cases ht6
    exact ⟨ct, h, w, bg, v5, v6, ⟨props, rfl⟩, h1, hct, h2, hh, h3, hw, h4, h5, h6, rfl⟩
  · rintro ⟨ct, h, w, bg, v5, v6, ⟨props, rfl⟩, h1, hct, h2, hh, h3, hw, h4, h5, h6, rfl⟩
    exact ⟨props, _, rfl, ⟨_, _, ⟨ct, h1, hct, rfl⟩, ⟨_, _, ⟨h, h2, hh, rfl⟩,
      ⟨_, _, ⟨w, h3, hw, rfl⟩, ⟨_, _, ⟨bg, h4, rfl⟩, ⟨v5, _, h5,
      ⟨v6, _, h6, rfl, rfl⟩, rfl⟩, rfl⟩, rfl⟩, rfl⟩, rfl⟩, rfl⟩

/-! ## Lemmas on runs -/

theorem Eff.bind_def {α β : Type} (m : Eff α) (f : α → Eff β) :
    (m >>= f) = Eff.andThen m f := rfl

theorem Eff.pure_def {α : Type} (a : α) : (pure a : Eff α) = Eff.ret a := rfl

theorem parser_parse_trace (x : Externals) (text : JsValue) :
    (parser.parse x text).trace = [] := by
  unfold StructuredOutputParser.parse
  split
  · split
    · rfl
    · split <;> rfl
  · rfl

theorem parser_parse_ok_iff (x : Externals) (text spec : JsValue) :
    (parser.parse x text).result = .ok spec ↔
      ∃ t payload, text = .str t ∧ x.jsonOfText t = some payload ∧
        parser.schema.parse payload = some spec := by
  unfold StructuredOutputParser.parse
  cases text <;> simp [Eff.fail]
  rename_i t
  cases h1 : x.jsonOfText t with
  | none => simp [Eff.fail]
  | some payload =>
    cases h2 : parser.schema.parse payload with
    | none => simp [h2, Eff.fail]
    | some out => simp [h2, Eff.ret]

theorem parser_parse_error (x : Externals) (text : JsValue) (e : JsError)
    (h : (parser.parse x text).result = .error e) : e = .outputParserException := by
  unfold StructuredOutputParser.parse at h
  split at h
  · split at h
    · simpa [Eff.fail, eq_comm] using h
    · split at h
      · simpa [Eff.fail, eq_comm] using h
      · simp [Eff.ret] at h
  · simpa [Eff.fail, eq_comm] using h

theorem parser_parse_rejects (x : Externals) (t : String) (payload : JsValue)
    (hjson : x.jsonOfText t = some payload) (hbad : parser.schema.parse payload = none) :
    parser.parse x (.str t) = Eff.fail .outputParserException := by
  simp [StructuredOutputParser.parse, hjson, hbad]

/-! ## The claims -/

/-- C1: whenever the output parser succeeds, the `chartType` of the chart spec it returns is one
of line, bar, doughnut, bubble, pie, polarArea, radar, scatter; and a model response whose
payload has a `chartType` outside that set is rejected with the exception of the parser. -/
theorem parser_chartType_in_enumeration (x : Externals) (text : JsValue) :
    (∀ spec, (parser.parse x text).result = .ok spec →
      ∃ ct, ct ∈ ["line", "bar", "doughnut", "bubble", "pie", "polarArea", "radar", "scatter"] ∧
        spec.get "chartType" = .str ct) ∧
    (∀ t payload, text = .str t → x.jsonOfText t = some payload →
      (∀ ct, ct ∈ ["line", "bar", "doughnut", "bubble", "pie", "polarArea", "radar", "scatter"] →
        payload.get "chartType" ≠ .str ct) →
      (parser.parse x text).result = .error .outputParserException) := by
  constructor
  · intro spec h
    obtain ⟨t, payload, -, -, hp⟩ := (parser_parse_ok_iff x text spec).mp h
    obtain ⟨ct, _, _, _, _, _, -, -, hct, -, -, -, -, -, -, -, rfl⟩ :=
      (parse_chart_spec payload spec).mp hp
    exact ⟨ct, hct, rfl⟩
  · rintro t payload rfl hjson hbad
    have hnone : parser.schema.parse payload = none := by
      cases hp : parser.schema.parse payload with
      | none => rfl
      | some spec =>
        obtain ⟨ct, _, _, _, _, _, -, h1, hct, -⟩ := (parse_chart_spec payload spec).mp hp
        exact absurd h1 (hbad ct hct)
    rw [parser_parse_rejects x t payload hjson hnone]
    rfl

theorem parser_chartType_in_enumeration_witness :
    (∃ ct, ct ∈ ["line", "bar", "doughnut", "bubble", "pie", "polarArea", "radar", "scatter"] ∧
        totalsPayload.get "chartType" = .str ct) ∧
      (parser.parse (testDouble histogramResponse) (.str histogramResponse)).result
        = .error .outputParserException :=
  ⟨(parser_chartType_in_enumeration (testDouble totalsResponse) (.str totalsResponse)).1
      totalsPayload rfl,
   (parser_chartType_in_enumeration (testDouble histogramResponse) (.str histogramResponse)).2
      histogramResponse histogramPayload rfl rfl (by
        intro ct hct h
        simp [histogramPayload, samplePayload, JsValue.get, List.lookup] at h
        subst h
        simp at hct)⟩

/-! ## Lemmas on arrays and datasets -/

theorem mem_of_map_eq_map_some {α β : Type} (f : α → Option β) (items : List α) (outs : List β)
    (h : items.map f = outs.map some) (o : β) (ho : o ∈ outs) : ∃ i ∈ items, f i = some o := by
  have : some o ∈ items.map f := by rw [h]; exact List.mem_map_of_mem some ho
  obtain ⟨i, hi, hfi⟩ := List.mem_map.mp this
  exact ⟨i, hi, hfi⟩

theorem map_eq_map_some_of_fixed {α : Type} (f : α → Option α)
    (hf : ∀ i o, f i = some o → o = i) :
    ∀ (items outs : List α), items.map f = outs.map some → outs = items
  | [], [], _ => rfl
  | [], _ :: _, h => by simp at h
  | _ :: _, [], h => by simp at h
  | i :: items, o :: outs, h => by
    simp only [List.map_cons, List.cons.injEq] at h
    rw [hf i o h.1, map_eq_map_some_of_fixed f hf items outs h.2]

theorem all_of_map_eq_map_some {α β : Type} (f : α → Option β) (items : List α) (outs : List β)
    (h : items.map f = outs.map some) (i : α) (hi : i ∈ items) : ∃ o ∈ outs, f i = some o := by
  have : f i ∈ outs.map some := by rw [← h]; exact List.mem_map_of_mem f hi
  obtain ⟨o, ho, hfo⟩ := List.mem_map.mp this
  exact ⟨o, ho, hfo.symm⟩

theorem parse_string_array (v out : JsValue) (h : (Zod.array .string).parse v = some out) :
    ∃ items, v = .arr items ∧ out = .arr items ∧ ∀ o ∈ items, ∃ s, o = .str s := by
  obtain ⟨items, outs, rfl, hmap, rfl⟩ := (Zod.parse_array_eq_some _ v out).mp h
  have hfix : ∀ i o, Zod.string.parse i = some o → o = i := by
    intro i o hio
    obtain ⟨s, rfl, rfl⟩ := (Zod.parse_string_eq_some i o).mp hio
    rfl
  have := map_eq_map_some_of_fixed _ hfix items outs hmap
  subst this
  refine ⟨outs, rfl, rfl, fun o ho => ?_⟩
  obtain ⟨o', -, hi⟩ := all_of_map_eq_map_some _ outs outs hmap o ho
  obtain ⟨s, rfl, -⟩ := (Zod.parse_string_eq_some o o').mp hi
  exact ⟨s, rfl⟩

theorem parse_number_array (v out : JsValue) (h : (Zod.array .number).parse v = some out) :
    ∃ items, v = .arr items ∧ out = .arr items ∧
      ∀ o ∈ items, ∃ n, o = .num n ∧ n.isNaN = false := by
  obtain ⟨items, outs, rfl, hmap, rfl⟩ := (Zod.parse_array_eq_some _ v out).mp h
  have hfix : ∀ i o, Zod.number.parse i = some o → o = i := by
    intro i o hio
    obtain ⟨s, rfl, -, rfl⟩ := (Zod.parse_number_eq_some i o).mp hio
    rfl
  have := map_eq_map_some_of_fixed _ hfix items outs hmap
  subst this
  refine ⟨outs, rfl, rfl, fun o ho => ?_⟩
  obtain ⟨o', -, hi⟩ := all_of_map_eq_map_some _ outs outs hmap o ho
  obtain ⟨n, rfl, hn, -⟩ := (Zod.parse_number_eq_some o o').mp hi
  exact ⟨n, rfl, hn⟩

/-- What the dataset schema accepts, and what it returns then. -/
theorem parse_dataset (v d : JsValue) (h : datasetSchema.parse v = some d) :
    ∃ label values borderColor backgroundColor borderWidth borderRadius borderSkipped,
      v.get "label" = .str label ∧ v.get "data" = .arr values ∧
      v.get "borderColor" = .str borderColor ∧
      v.get "backgroundColor" = .arr backgroundColor ∧
      d = .obj [("label", .str label), ("data", .arr values), ("borderColor", .str borderColor),
        ("backgroundColor", .arr backgroundColor), ("borderWidth", .num borderWidth),
        ("borderRadius", .num borderRadius), ("borderSkipped", .bool borderSkipped)] ∧
      (∀ o ∈ values, ∃ n, o = .num n ∧ n.isNaN = false) ∧
      (∀ c ∈ backgroundColor, ∃ s, c = .str s) ∧
      borderWidth.isNaN = false ∧ borderRadius.isNaN = false := by
  unfold datasetSchema at h
  simp only [Zod.parse_object_eq_some, Zod.parseShape_cons_required, Zod.isOptional,
    Zod.parseShape_nil, Zod.parse_describe, Zod.parse_number_eq_some,
    Zod.parse_string_eq_some, Zod.parse_boolean_eq_some] at h
  obtain ⟨props, outs, rfl, ⟨v1, t1, ⟨label, hlabel, rfl⟩, ⟨v2, t2, h2,
      ⟨v3, t3, ⟨bc, hbc, rfl⟩, ⟨v4, t4, h4, ⟨v5, t5, ⟨bw, -, hbw, rfl⟩,
      ⟨v6, t6, ⟨br, -, hbr, rfl⟩, ⟨v7, t7, ⟨bs, -, rfl⟩, ht7, rfl⟩, rfl⟩, rfl⟩, rfl⟩,
      rfl⟩, rfl⟩, rfl⟩, rfl⟩ := h
  cases ht7
  obtain ⟨values, hv, rfl, hvalues⟩ := parse_number_array _ _ h2
  obtain ⟨bgs, hb, rfl, hbgs⟩ := parse_string_array _ _ h4
  exact ⟨label, values, bc, bgs, bw, br, bs, hlabel, hv, hbc, hb, rfl, hvalues, hbgs, hbw, hbr⟩

/-- What the schema of `data` accepts, and what it returns then. -/
theorem parse_data (v data : JsValue) (h : dataSchema.parse v = some data) :
    ∃ labels items datasets,
      v.get "labels" = .arr labels ∧ v.get "datasets" = .arr items ∧
      items.map datasetSchema.parse = datasets.map some ∧
      data = .obj [("labels", .arr labels), ("datasets", .arr datasets)] ∧
      (∀ l ∈ labels, ∃ s, l = .str s) := by
  unfold dataSchema at h
  have hds : datasetSchema.isOptional = false := rfl
  simp only [Zod.parse_object_eq_some, Zod.parseShape_cons_required, Zod.isOptional,
    Zod.parseShape_nil, Zod.parse_describe] at h
  obtain ⟨props, outs, rfl, ⟨v1, t1, h1, ⟨v2, t2, h2, ht2, rfl⟩, rfl⟩, rfl⟩ := h
  cases ht2
  obtain ⟨labels, hl, rfl, hlabels⟩ := parse_string_array _ _ h1
  obtain ⟨items, datasets, hi, hmap, rfl⟩ := (Zod.parse_array_eq_some _ _ _).mp h2
  exact ⟨labels, items, datasets, hl, hi, hmap, rfl, hlabels⟩

/-- The fields of a chart spec the parser returned. -/
theorem parsed_spec_fields (x : Externals) (text spec : JsValue)
    (hok : (parser.parse x text).result = .ok spec) :
    ∃ ct h w bg labels datasets options,
      spec = .obj [("chartType", .str ct), ("height", .num h), ("width", .num w),
        ("backgroundColour", .str bg),
        ("data", .obj [("labels", .arr labels), ("datasets", .arr datasets)]),
        ("options", options)] ∧
      ct ∈ chartTypes ∧ h.isNaN = false ∧ w.isNaN = false ∧
      (∀ l ∈ labels, ∃ s, l = .str s) ∧
      ∀ d ∈ datasets, ∃ item, datasetSchema.parse item = some d := by
  obtain ⟨t, payload, -, -, hp⟩ := (parser_parse_ok_iff x text spec).mp hok
  obtain ⟨ct, h, w, bg, data, options, -, -, hct, -, hh, -, hw, -, hdata, -, rfl⟩ :=
    (parse_chart_spec payload spec).mp hp
  obtain ⟨labels, items, datasets, -, -, hmap, rfl, hl⟩ := parse_data _ _ hdata
  refine ⟨ct, h, w, bg, labels, datasets, options, rfl, hct, hh, hw, hl, fun d hd => ?_⟩
  obtain ⟨i, -, hi⟩ := mem_of_map_eq_map_some _ items datasets hmap d hd
  exact ⟨i, hi⟩

/-! ## Lemmas on the chart generator -/

theorem generate_chart_rejects (x : Externals) (self : GrizzyAIChartGen) (t : String)
    (payload : JsValue) (hjson : x.jsonOfText t = some payload)
    (hbad : parser.schema.parse payload = none) :
    self.generate_chart_from_raw_gpt_response x (.str t) = Eff.fail .outputParserException := by
  unfold GrizzyAIChartGen.generate_chart_from_raw_gpt_response
  rw [parser_parse_rejects x t payload hjson hbad]
  rfl

/-- C2, as stated, fails: the parser accepts a payload with three labels whose only dataset has a
single value. -/
theorem dataset_length_counterexample :
    (parser.parse (testDouble mismatchedResponse) (.str mismatchedResponse)).result = .ok mismatchedPayload ∧
      ¬ datasetLengthsMatch mismatchedPayload := by
  refine ⟨rfl, fun h => ?_⟩
  have := h (sampleDataset [.num (.finite 1)] (.str "#36A2EB") [.str "#36A2EB"])
    (by simp [mismatchedPayload, samplePayload, JsValue.get, JsValue.items, List.lookup])
  simp [mismatchedPayload, samplePayload, sampleDataset, JsValue.get, JsValue.items,
    List.lookup] at this

/-- C2 (amended): in every chart spec the output parser returns, `data.labels` is a sequence of
strings, `data.datasets` is a sequence, and the `data` of every dataset is a sequence of numbers
other than NaN. The lengths are not compared. -/
theorem parser_dataset_values_are_numbers (x : Externals) (text spec : JsValue)
    (h : (parser.parse x text).result = .ok spec) :
    ∃ labels datasets,
      (spec.get "data").get "labels" = .arr labels ∧
      (∀ l ∈ labels, ∃ s, l = .str s) ∧
      (spec.get "data").get "datasets" = .arr datasets ∧
      ∀ d ∈ datasets, ∃ values, d.get "data" = .arr values ∧
        ∀ v ∈ values, ∃ n, v = .num n ∧ n.isNaN = false := by
  obtain ⟨ct, h, w, bg, labels, datasets, options, rfl, -, -, -, hl, hd⟩ :=
    parsed_spec_fields x text spec h
  refine ⟨labels, datasets, rfl, hl, rfl, fun d hdm => ?_⟩
  obtain ⟨item, hitem⟩ := hd d hdm
  obtain ⟨label, values, bc, bgs, bw, br, bs, -, -, -, -, rfl, hvalues, -⟩ :=
    parse_dataset item d hitem
  exact ⟨values, rfl, hvalues⟩

theorem parser_dataset_values_are_numbers_witness :
    ∃ labels datasets,
      (mismatchedPayload.get "data").get "labels" = .arr labels ∧
      (∀ l ∈ labels, ∃ s, l = .str s) ∧
      (mismatchedPayload.get "data").get "datasets" = .arr datasets ∧
      ∀ d ∈ datasets, ∃ values, d.get "data" = .arr values ∧
        ∀ v ∈ values, ∃ n, v = .num n ∧ n.isNaN = false :=
  parser_dataset_values_are_numbers (testDouble mismatchedResponse) (.str mismatchedResponse)
    mismatchedPayload rfl

theorem Eff.ret_andThen {α β : Type} (a : α) (f : α → Eff β) :
    Eff.andThen (Eff.ret a) f = f a := by
  simp [Eff.andThen, Eff.ret]

theorem Eff.fail_andThen {α β : Type} (e : JsError) (f : α → Eff β) :
    Eff.andThen (Eff.fail e) f = Eff.fail e := by
  simp [Eff.andThen, Eff.fail]

theorem parser_parse_eq_ret (x : Externals) (text spec : JsValue)
    (hok : (parser.parse x text).result = .ok spec) : parser.parse x text = Eff.ret spec := by
  have ht := parser_parse_trace x text
  cases hp : parser.parse x text with
  | mk result trace =>
    rw [hp] at hok ht
    simp only at hok ht
    rw [hok, ht]
    rfl

/-- The run of the chart generator on a response the parser accepts. -/
theorem generate_chart_accepts (x : Externals) (self : GrizzyAIChartGen) (text : JsValue)
    (ct bg : String) (h w : JsNumber) (data options : JsValue)
    (hok : (parser.parse x text).result = .ok (.obj [("chartType", .str ct),
      ("height", .num h), ("width", .num w), ("backgroundColour", .str bg), ("data", data),
      ("options", options)])) :
    self.generate_chart_from_raw_gpt_response x text =
      Eff.andThen (Eff.call (.newCanvas (.num w) (.num h) (.str bg))
        (match x.newCanvasError (.num w) (.num h) (.str bg) with
         | some e => .error e
         | none => .ok (ChartJSNodeCanvas.mk (.num w) (.num h) (.str bg))))
      (fun canvas =>
        Eff.andThen (Eff.call
          (.renderToDataURL canvas (.obj [("type", .str ct), ("data", data), ("options", options)]))
          (x.renderToDataURL canvas
            (.obj [("type", .str ct), ("data", data), ("options", options)])))
        (fun rendered =>
          Eff.andThen (self.generate_chartjs_code x rendered.configuration
            (.str bg) (.num h) (.num w))
          (fun code => Eff.ret { data_url := rendered.data_url, code := code }))) := by
  unfold GrizzyAIChartGen.generate_chart_from_raw_gpt_response
  rw [parser_parse_eq_ret x text _ hok]
  simp only [Eff.bind_def, Eff.pure_def, Eff.ret_andThen]
  simp [JsValue.get, JsValue.restProps, JsValue.spread, JsValue.setProp, List.lookup]

/-- C6, as stated, fails: the parser accepts a payload with height zero and width minus three
halves, and the canvas is then constructed with these sizes. -/
theorem canvas_size_counterexample :
    (parser.parse (testDouble badSizeResponse) (.str badSizeResponse)).result = .ok badSizePayload ∧
      (badSizePayload.get "height").isPositiveInteger = false ∧
      (badSizePayload.get "width").isPositiveInteger = false ∧
      (testGenerator.generate_chart_from_raw_gpt_response
        (testDouble badSizeResponse) (.str badSizeResponse)).trace.head? =
        some (.newCanvas (.num (.finite (-3 / 2))) (.num (.finite 0)) (.str "#FFFFFF")) := by
  refine ⟨rfl, ?_, ?_, rfl⟩
  · simp [badSizePayload, samplePayload, JsValue.get, List.lookup, JsValue.isPositiveInteger,
      JsNumber.isPositiveInteger]
  · simp [badSizePayload, samplePayload, JsValue.get, List.lookup, JsValue.isPositiveInteger,
      JsNumber.isPositiveInteger]

/-- C6 (amended): in every chart spec the output parser accepts, `height` and `width` are numbers
other than NaN, with no constraint on sign or integrality; a payload whose `height` or `width`
is not such a number is rejected by the parser, and the chart generator then stops with the
exception of the parser before it constructs a canvas. -/
theorem parser_size_is_number (x : Externals) (self : GrizzyAIChartGen) (text : JsValue) :
    (∀ spec, (parser.parse x text).result = .ok spec →
      ∃ h w, spec.get "height" = .num h ∧ h.isNaN = false ∧
        spec.get "width" = .num w ∧ w.isNaN = false) ∧
    (∀ t payload, text = .str t → x.jsonOfText t = some payload →
      ((∀ n, payload.get "height" = .num n → n.isNaN = true) ∨
        (∀ n, payload.get "width" = .num n → n.isNaN = true)) →
      (parser.parse x text).result = .error .outputParserException ∧
        (self.generate_chart_from_raw_gpt_response x text).result =
          .error .outputParserException ∧
        (self.generate_chart_from_raw_gpt_response x text).trace = []) := by
  constructor
  · intro spec hok
    obtain ⟨ct, h, w, bg, labels, datasets, options, rfl, -, hh, hw, -⟩ :=
      parsed_spec_fields x text spec hok
    exact ⟨h, w, rfl, hh, rfl, hw⟩
  · rintro t payload rfl hjson hbad
    have hnone : parser.schema.parse payload = none := by
      cases hp : parser.schema.parse payload with
      | none => rfl
      | some spec =>
        obtain ⟨ct, h, w, _, _, _, -, -, -, h2, hh, h3, hw, -⟩ :=
          (parse_chart_spec payload spec).mp hp
        rcases hbad with hb | hb
        · rw [hb h h2] at hh; cases hh
        · rw [hb w h3] at hw; cases hw
    rw [parser_parse_rejects x t payload hjson hnone,
      generate_chart_rejects x self t payload hjson hnone]
    exact ⟨rfl, rfl, rfl⟩

theorem parser_size_is_number_witness :
    (∃ h w, badSizePayload.get "height" = .num h ∧ h.isNaN = false ∧
        badSizePayload.get "width" = .num w ∧ w.isNaN = false) ∧
      ((parser.parse (testDouble textHeightResponse) (.str textHeightResponse)).result =
          .error .outputParserException ∧
        (testGenerator.generate_chart_from_raw_gpt_response
          (testDouble textHeightResponse) (.str textHeightResponse)).result = .error .outputParserException ∧
        (testGenerator.generate_chart_from_raw_gpt_response
          (testDouble textHeightResponse) (.str textHeightResponse)).trace = []) :=
  ⟨(parser_size_is_number (testDouble badSizeResponse)
      testGenerator (.str badSizeResponse)).1 badSizePayload rfl,
   (parser_size_is_number (testDouble textHeightResponse)
      testGenerator (.str textHeightResponse)).2
      textHeightResponse textHeightPayload rfl rfl (Or.inl (by
        intro n h
        simp [textHeightPayload, samplePayload, JsValue.get, List.lookup] at h))⟩

/-- C7, as stated, fails: the parser accepts a payload whose colours are the strings `white`,
`blue` and `rgb(54, 162, 235)`. -/
theorem colour_counterexample :
    (parser.parse (testDouble namedColourResponse) (.str namedColourResponse)).result =
        .ok namedColourPayload ∧
      ¬ coloursAreHex namedColourPayload := by
  refine ⟨rfl, fun h => ?_⟩
  have := h.1
  simp [namedColourPayload, samplePayload, JsValue.get, List.lookup, JsValue.isHexColour,
    isHexColour] at this

/-- C7 (amended): in every chart spec the output parser accepts, `backgroundColour`, the
`borderColor` of every dataset and every entry of the `backgroundColor` of every dataset are
strings, of any content; a payload in which one of these fields is not a string is rejected by
the parser. -/
theorem parser_colours_are_strings (x : Externals) (text : JsValue) :
    (∀ spec, (parser.parse x text).result = .ok spec →
      (∃ s, spec.get "backgroundColour" = .str s) ∧
      ∀ d ∈ ((spec.get "data").get "datasets").items,
        (∃ s, d.get "borderColor" = .str s) ∧
        ∀ c ∈ (d.get "backgroundColor").items, ∃ s, c = .str s) ∧
    (∀ t payload, text = .str t → x.jsonOfText t = some payload →
      ((∀ s, payload.get "backgroundColour" ≠ .str s) ∨
        ∃ d ∈ ((payload.get "data").get "datasets").items,
          (∀ s, d.get "borderColor" ≠ .str s) ∨
          ∃ c ∈ (d.get "backgroundColor").items, ∀ s, c ≠ .str s) →
      (parser.parse x text).result = .error .outputParserException) := by
  constructor
  · intro spec hok
    obtain ⟨ct, h, w, bg, labels, datasets, options, rfl, -, -, -, -, hd⟩ :=
      parsed_spec_fields x text spec hok
    refine ⟨⟨bg, rfl⟩, fun d hdm => ?_⟩
    obtain ⟨item, hitem⟩ := hd d hdm
    obtain ⟨label, values, bc, bgs, bw, br, bs, -, -, -, -, rfl, -, hbgs, -⟩ :=
      parse_dataset item d hitem
    exact ⟨⟨bc, rfl⟩, hbgs⟩
  · rintro t payload rfl hjson hbad
    have hnone : parser.schema.parse payload = none := by
      cases hp : parser.schema.parse payload with
      | none => rfl
      | some spec =>
        obtain ⟨ct, h, w, bg, data, options, -, -, -, -, -, -, -, h4, hdata, -⟩ :=
          (parse_chart_spec payload spec).mp hp
        rcases hbad with hb | ⟨d, hd, hb⟩
        · exact absurd h4 (hb bg)
        · obtain ⟨labels, items, datasets, -, hitems, hmap, -, -⟩ := parse_data _ _ hdata
          rw [hitems] at hd
          obtain ⟨o, -, ho⟩ := all_of_map_eq_map_some _ items datasets hmap d hd
          obtain ⟨label, values, bc, bgs, bw, br, bs, -, -, hbc, hbg, -, -, hbgs, -⟩ :=
            parse_dataset d o ho
          rcases hb with hb | ⟨c, hc, hb⟩
          · exact absurd hbc (hb bc)
          · rw [hbg] at hc
            obtain ⟨s, hs⟩ := hbgs c hc
            exact absurd hs (hb s)
    rw [parser_parse_rejects x t payload hjson hnone]
    rfl

theorem parser_colours_are_strings_witness :
    ((∃ s, namedColourPayload.get "backgroundColour" = .str s) ∧
      ∀ d ∈ ((namedColourPayload.get "data").get "datasets").items,
        (∃ s, d.get "borderColor" = .str s) ∧
        ∀ c ∈ (d.get "backgroundColor").items, ∃ s, c = .str s) ∧
      (parser.parse (testDouble numericColourResponse) (.str numericColourResponse)).result =
        .error .outputParserException :=
  ⟨(parser_colours_are_strings (testDouble namedColourResponse) (.str namedColourResponse)).1
      namedColourPayload rfl,
   (parser_colours_are_strings (testDouble numericColourResponse) (.str numericColourResponse)).2
      numericColourResponse numericColourPayload rfl rfl (Or.inl (by
        intro s h
        simp [numericColourPayload, samplePayload, JsValue.get, List.lookup] at h))⟩

theorem parser_parse_eq_fail (x : Externals) (text : JsValue) (e : JsError)
    (herr : (parser.parse x text).result = .error e) :
    parser.parse x text = Eff.fail .outputParserException := by
  have ht := parser_parse_trace x text
  have he := parser_parse_error x text e herr
  subst he
  cases hp : parser.parse x text with
  | mk result trace =>
    rw [hp] at herr ht
    simp only at herr ht
    rw [herr, ht]
    rfl

/-- The run of the chart generator on a response the parser refuses. -/
theorem generate_chart_fails (x : Externals) (self : GrizzyAIChartGen) (text : JsValue)
    (e : JsError) (herr : (parser.parse x text).result = .error e) :
    self.generate_chart_from_raw_gpt_response x text = Eff.fail .outputParserException := by
  unfold GrizzyAIChartGen.generate_chart_from_raw_gpt_response
  rw [parser_parse_eq_fail x text e herr]
  rfl

/-- The runs of the chart generator on a response the parser accepts: the canvas constructor
throws, the render throws, or both return. -/
theorem generate_chart_run (x : Externals) (self : GrizzyAIChartGen)
    (response spec : JsValue) (hok : (parser.parse x response).result = .ok spec) :
    (∀ e, x.newCanvasError (spec.get "width") (spec.get "height")
        (spec.get "backgroundColour") = some e →
      self.generate_chart_from_raw_gpt_response x response =
        ⟨.error e, [.newCanvas (spec.get "width") (spec.get "height")
          (spec.get "backgroundColour")]⟩) ∧
    (x.newCanvasError (spec.get "width") (spec.get "height")
        (spec.get "backgroundColour") = none →
      ∀ e, x.renderToDataURL
          ⟨spec.get "width", spec.get "height", spec.get "backgroundColour"⟩
          (.obj [("type", spec.get "chartType"), ("data", spec.get "data"),
            ("options", spec.get "options")]) = .error e →
      self.generate_chart_from_raw_gpt_response x response =
        ⟨.error e, [.newCanvas (spec.get "width") (spec.get "height")
            (spec.get "backgroundColour"),
          .renderToDataURL ⟨spec.get "width", spec.get "height", spec.get "backgroundColour"⟩
            (.obj [("type", spec.get "chartType"), ("data", spec.get "data"),
              ("options", spec.get "options")])]⟩) ∧
    (x.newCanvasError (spec.get "width") (spec.get "height")
        (spec.get "backgroundColour") = none →
      ∀ rendered, x.renderToDataURL
          ⟨spec.get "width", spec.get "height", spec.get "backgroundColour"⟩
          (.obj [("type", spec.get "chartType"), ("data", spec.get "data"),
            ("options", spec.get "options")]) = .ok rendered →
      self.generate_chart_from_raw_gpt_response x response =
        ⟨.ok ⟨rendered.data_url,
            x.prettify (jsTrim (GrizzyAIChartGen.chartjs_template x
              rendered.configuration (spec.get "backgroundColour") (spec.get "height")
              (spec.get "width")))⟩,
          [.newCanvas (spec.get "width") (spec.get "height") (spec.get "backgroundColour"),
            .renderToDataURL
              ⟨spec.get "width", spec.get "height", spec.get "backgroundColour"⟩
              (.obj [("type", spec.get "chartType"), ("data", spec.get "data"),
                ("options", spec.get "options")]),
            .prettify (jsTrim (GrizzyAIChartGen.chartjs_template x rendered.configuration
              (spec.get "backgroundColour") (spec.get "height") (spec.get "width")))]⟩) := by
  obtain ⟨ct, h, w, bg, labels, datasets, options, rfl, -⟩ :=
    parsed_spec_fields x response spec hok
  rw [generate_chart_accepts x self response ct bg h w _ options hok]
  have hg1 : (JsValue.obj [("chartType", .str ct), ("height", .num h), ("width", .num w),
      ("backgroundColour", .str bg),
      ("data", .obj [("labels", .arr labels), ("datasets", .arr datasets)]),
      ("options", options)]).get "chartType" = .str ct := rfl
  have hg2 : (JsValue.obj [("chartType", .str ct), ("height", .num h), ("width", .num w),
      ("backgroundColour", .str bg),
      ("data", .obj [("labels", .arr labels), ("datasets", .arr datasets)]),
      ("options", options)]).get "height" = .num h := rfl
  have hg3 : (JsValue.obj [("chartType", .str ct), ("height", .num h), ("width", .num w),
      ("backgroundColour", .str bg),
      ("data", .obj [("labels", .arr labels), ("datasets", .arr datasets)]),
      ("options", options)]).get "width" = .num w := rfl
  have hg4 : (JsValue.obj [("chartType", .str ct), ("height", .num h), ("width", .num w),
      ("backgroundColour", .str bg),
      ("data", .obj [("labels", .arr labels), ("datasets", .arr datasets)]),
      ("options", options)]).get "backgroundColour" = .str bg := rfl
  have hg5 : (JsValue.obj [("chartType", .str ct), ("height", .num h), ("width", .num w),
      ("backgroundColour", .str bg),
      ("data", .obj [("labels", .arr labels), ("datasets", .arr datasets)]),
      ("options", options)]).get "data" =
        .obj [("labels", .arr labels), ("datasets", .arr datasets)] := rfl
  have hg6 : (JsValue.obj [("chartType", .str ct), ("height", .num h), ("width", .num w),
      ("backgroundColour", .str bg),
      ("data", .obj [("labels", .arr labels), ("datasets", .arr datasets)]),
      ("options", options)]).get "options" = options := rfl
  simp only [hg1, hg2, hg3, hg4, hg5, hg6]
  refine ⟨fun e he => ?_, fun hc e he => ?_, fun hc rendered hu => ?_⟩
  · simp [Eff.andThen, Eff.call, he]
  · simp [Eff.andThen, Eff.call, hc, he]
  · simp [Eff.andThen, Eff.call, Eff.ret, hc, hu, GrizzyAIChartGen.generate_chartjs_code]

/-- C8, as stated, fails: on the scenario response, with a renderer that writes into the
configuration it is given, as the canvas library does (here it sets `options.responsive` and
`options.animation` to `false`), the renderer is called with the configuration that was built,
of keys `type`, `data` and `options`, but the text the snippet generator hands to the
pretty-printer is made from the configuration the renderer left, with the two more options, and
it is not the text made from the configuration that was built. -/
theorem snippet_configuration_counterexample :
    (parser.parse (testDouble totalsResponse) (.str totalsResponse)).result =
        .ok totalsPayload ∧
      (testGenerator.generate_chart_from_raw_gpt_response (testDouble totalsResponse)
        (.str totalsResponse)).trace =
        [.newCanvas (.num (.finite 400)) (.num (.finite 400)) (.str "#FFFFFF"),
          .renderToDataURL ⟨.num (.finite 400), .num (.finite 400), .str "#FFFFFF"⟩
            (.obj [("type", .str "bar"), ("data", totalsPayload.get "data"),
              ("options", sampleOptions)]),
          .prettify renderedSnippet] ∧
      (testGenerator.generate_chartjs_code (testDouble totalsResponse)
        (.obj [("type", .str "bar"), ("data", totalsPayload.get "data"),
          ("options", sampleOptions)])
        (.str "#FFFFFF") (.num (.finite 400)) (.num (.finite 400))).trace =
        [.prettify builtSnippet] ∧
      renderedSnippet ≠ builtSnippet := by
  refine ⟨rfl, rfl, rfl, by decide⟩

/-- C8 (amended): for every chart spec the output parser returns, the chart generator
constructs the canvas with the width, height and backgroundColour of the spec, and the
configuration it builds and passes to the renderer is exactly the object with the keys `type`,
`data` and `options` (in this order, with the chartType, data and options of the spec, and no
other key). The snippet generator is passed the same object afterwards, in the state the
renderer left it, which need not be the state it was built in: the text handed to the
pretty-printer and the returned code are made from `rendered.configuration`. The three cases
are: the canvas constructor throws, the render throws, both return. -/
theorem chart_configuration_exact (x : Externals) (self : GrizzyAIChartGen)
    (response spec : JsValue) (hok : (parser.parse x response).result = .ok spec) :
    let configuration := JsValue.obj [("type", spec.get "chartType"),
      ("data", spec.get "data"), ("options", spec.get "options")]
    let width := spec.get "width"
    let height := spec.get "height"
    let backgroundColour := spec.get "backgroundColour"
    let canvas := ChartJSNodeCanvas.mk width height backgroundColour
    let run := self.generate_chart_from_raw_gpt_response x response
    (∀ e, x.newCanvasError width height backgroundColour = some e →
      run.result = .error e ∧ run.trace = [.newCanvas width height backgroundColour]) ∧
    (x.newCanvasError width height backgroundColour = none →
      ∀ e, x.renderToDataURL canvas configuration = .error e →
      run.result = .error e ∧
      run.trace = [.newCanvas width height backgroundColour,
        .renderToDataURL canvas configuration]) ∧
    (x.newCanvasError width height backgroundColour = none →
      ∀ rendered, x.renderToDataURL canvas configuration = .ok rendered →
      run.result = .ok ⟨rendered.data_url,
        x.prettify (jsTrim (GrizzyAIChartGen.chartjs_template x
          rendered.configuration backgroundColour height width))⟩ ∧
      run.trace = [.newCanvas width height backgroundColour,
        .renderToDataURL canvas configuration,
        .prettify (jsTrim (GrizzyAIChartGen.chartjs_template x rendered.configuration
          backgroundColour height width))] ∧
      (self.generate_chartjs_code x rendered.configuration backgroundColour height
        width).trace =
        [.prettify (jsTrim (GrizzyAIChartGen.chartjs_template x rendered.configuration
          backgroundColour height width))]) := by
  intro configuration width height backgroundColour canvas run
  obtain ⟨h1, h2, h3⟩ := generate_chart_run x self response spec hok
  refine ⟨fun e he => ?_, fun hc e he => ?_, fun hc rendered hu => ?_⟩
  · show (self.generate_chart_from_raw_gpt_response x response).result = _ ∧
      (self.generate_chart_from_raw_gpt_response x response).trace = _
    rw [h1 e he]
    exact ⟨rfl, rfl⟩
  · show (self.generate_chart_from_raw_gpt_response x response).result = _ ∧
      (self.generate_chart_from_raw_gpt_response x response).trace = _
    rw [h2 hc e he]
    exact ⟨rfl, rfl⟩
  · show (self.generate_chart_from_raw_gpt_response x response).result = _ ∧
      (self.generate_chart_from_raw_gpt_response x response).trace = _ ∧ _
    rw [h3 hc rendered hu]
    exact ⟨rfl, rfl, rfl⟩

theorem chart_configuration_exact_witness :
    (testGenerator.generate_chart_from_raw_gpt_response (testDouble totalsResponse)
        (.str totalsResponse)).result =
        .ok { data_url := "data:image/png;base64,AAAA", code := renderedSnippet } ∧
      (testGenerator.generate_chart_from_raw_gpt_response (testDouble totalsResponse)
        (.str totalsResponse)).trace =
        [.newCanvas (.num (.finite 400)) (.num (.finite 400)) (.str "#FFFFFF"),
          .renderToDataURL ⟨.num (.finite 400), .num (.finite 400), .str "#FFFFFF"⟩
            (.obj [("type", .str "bar"), ("data", totalsPayload.get "data"),
              ("options", sampleOptions)]),
          .prettify renderedSnippet] :=
  ⟨((chart_configuration_exact (testDouble totalsResponse) testGenerator
      (.str totalsResponse) totalsPayload rfl).2.2 rfl
      ⟨"data:image/png;base64,AAAA", withoutAnimation (.obj [("type", .str "bar"),
        ("data", totalsPayload.get "data"), ("options", sampleOptions)])⟩ rfl).1,
   ((chart_configuration_exact (testDouble totalsResponse) testGenerator
      (.str totalsResponse) totalsPayload rfl).2.2 rfl
      ⟨"data:image/png;base64,AAAA", withoutAnimation (.obj [("type", .str "bar"),
        ("data", totalsPayload.get "data"), ("options", sampleOptions)])⟩ rfl).2.1⟩

/-! ## Omitted fields -/

theorem Zod.parse_undefined_of_required : (s : Zod) → s.isOptional = false →
    s.parse .undefined = none
  | .string, _ => by simp [Zod.parse]
  | .number, _ => by simp [Zod.parse]
  | .boolean, _ => by simp [Zod.parse]
  | .enum _, _ => by simp [Zod.parse]
  | .array _, _ => by simp [Zod.parse]
  | .object _, _ => by simp [Zod.parse]
  | .optional _, hs => by simp [Zod.isOptional] at hs
  | .describe i _, hs => by
    rw [Zod.parse_describe]
    exact Zod.parse_undefined_of_required i (by simpa [Zod.isOptional] using hs)

theorem Zod.parseShape_mem (props : List (String × JsValue)) :
    ∀ (shape : List (String × Zod)) (outs : List (String × JsValue)),
      Zod.parseShape shape props = some outs →
      ∀ k s, (k, s) ∈ shape → ∃ v, s.parse ((JsValue.obj props).get k) = some v
  | [], _, _, k, s, hm => by simp at hm
  | (k', s') :: rest, outs, h, k, s, hm => by
    obtain ⟨v, tail, hv, ht, -⟩ := (Zod.parseShape_cons_eq_some k' s' rest props outs).mp h
    rcases List.mem_cons.mp hm with heq | hm'
    · cases heq
      exact ⟨v, hv⟩
    · exact Zod.parseShape_mem props rest tail ht k s hm'

theorem Zod.Omits.ne_undefined {s : Zod} {v : JsValue} (h : Zod.Omits s v) :
    v ≠ .undefined := by
  induction h with
  | key _ _ _ _ _ => intro h; cases h
  | field _ _ _ _ _ => intro h; cases h
  | item _ _ _ _ => intro h; cases h
  | optional _ ih => exact ih
  | describe _ ih => exact ih

/-- A payload that omits a required field does not validate. -/
theorem Zod.Omits.parse_eq_none {s : Zod} {v : JsValue} (h : Zod.Omits s v) :
    s.parse v = none := by
  induction h with
  | @key shape props k s hm hs hk =>
    cases hp : (Zod.object shape).parse (.obj props) with
    | none => rfl
    | some out =>
      obtain ⟨props', outs, hprops, hshape, -⟩ := (Zod.parse_object_eq_some _ _ _).mp hp
      cases hprops
      obtain ⟨v, hv⟩ := Zod.parseShape_mem props shape outs hshape k s hm
      have hu : (JsValue.obj props).get k = .undefined := by
        simp only [JsValue.has] at hk
        simp only [JsValue.get]
        cases hl : props.lookup k with
        | none => rfl
        | some _ => rw [hl] at hk; cases hk
      rw [hu, Zod.parse_undefined_of_required s hs] at hv
      cases hv
  | @field shape props k s hm _ ih =>
    cases hp : (Zod.object shape).parse (.obj props) with
    | none => rfl
    | some out =>
      obtain ⟨props', outs, hprops, hshape, -⟩ := (Zod.parse_object_eq_some _ _ _).mp hp
      cases hprops
      obtain ⟨v, hv⟩ := Zod.parseShape_mem props shape outs hshape k s hm
      rw [ih] at hv
      cases hv
  | @item e items v hm _ ih =>
    cases hp : (Zod.array e).parse (.arr items) with
    | none => rfl
    | some out =>
      obtain ⟨items', outs, hitems, hmap, -⟩ := (Zod.parse_array_eq_some _ _ _).mp hp
      cases hitems
      obtain ⟨o, -, ho⟩ := all_of_map_eq_map_some _ items outs hmap v hm
      rw [ih] at ho
      cases ho
  | @optional i v hom ih =>
    cases hp : (Zod.optional i).parse v with
    | none => rfl
    | some out =>
      rcases (Zod.parse_optional_eq_some _ _ _).mp hp with ⟨hu, -⟩ | ⟨-, hi⟩
      · exact absurd hu hom.ne_undefined
      · rw [ih] at hi
        cases hi
  | @describe i d v _ ih => rw [Zod.parse_describe]; exact ih

/-- The fields the claim names are required fields: a payload object without `chartType`,
`height`, `width` or `backgroundColour`, or whose `options` object lacks `indexAxis`, or whose
`options.scales.x` object lacks `stacked`, omits a required field of the chart schema. -/
theorem omits_named_fields (props : List (String × JsValue)) :
    (∀ k ∈ ["chartType", "height", "width", "backgroundColour", "data", "options"],
      (JsValue.obj props).has k = false → parser.schema.Omits (.obj props)) ∧
    (∀ oprops, (JsValue.obj props).get "options" = .obj oprops →
      (JsValue.obj oprops).has "indexAxis" = false → parser.schema.Omits (.obj props)) ∧
    (∀ oprops sprops xprops, (JsValue.obj props).get "options" = .obj oprops →
      (JsValue.obj oprops).get "scales" = .obj sprops →
      (JsValue.obj sprops).get "x" = .obj xprops →
      (JsValue.obj xprops).has "stacked" = false → parser.schema.Omits (.obj props)) := by
  rw [parser_schema_eq]
  refine ⟨fun k hk hhas => ?_, fun oprops ho hhas => ?_, fun oprops sprops xprops ho hs hx hhas => ?_⟩
  · simp only [List.mem_cons, List.mem_singleton, List.not_mem_nil, or_false] at hk
    rcases hk with rfl | rfl | rfl | rfl | rfl | rfl
    · exact Zod.Omits.key "chartType" _ (List.Mem.head _) rfl hhas
    · exact Zod.Omits.key "height" _ (List.Mem.tail _ (List.Mem.head _)) rfl hhas
    · exact Zod.Omits.key "width" _ (List.Mem.tail _ (List.Mem.tail _ (List.Mem.head _))) rfl
        hhas
    · exact Zod.Omits.key "backgroundColour" _
        (List.Mem.tail _ (List.Mem.tail _ (List.Mem.tail _ (List.Mem.head _)))) rfl hhas
    · exact Zod.Omits.key "data" _
        (List.Mem.tail _ (List.Mem.tail _ (List.Mem.tail _ (List.Mem.tail _
          (List.Mem.head _))))) rfl hhas
    · exact Zod.Omits.key "options" _
        (List.Mem.tail _ (List.Mem.tail _ (List.Mem.tail _ (List.Mem.tail _
          (List.Mem.tail _ (List.Mem.head _)))))) rfl hhas
  · refine Zod.Omits.field "options" optionsSchema
      (List.Mem.tail _ (List.Mem.tail _ (List.Mem.tail _ (List.Mem.tail _
        (List.Mem.tail _ (List.Mem.head _)))))) ?_
    rw [ho]
    exact Zod.Omits.describe (Zod.Omits.key "indexAxis" _ (List.Mem.head _) rfl hhas)
  · refine Zod.Omits.field "options" optionsSchema
      (List.Mem.tail _ (List.Mem.tail _ (List.Mem.tail _ (List.Mem.tail _
        (List.Mem.tail _ (List.Mem.head _)))))) ?_
    rw [ho]
    refine Zod.Omits.describe (Zod.Omits.field "scales" _
      (List.Mem.tail _ (List.Mem.tail _ (List.Mem.head _))) ?_)
    rw [hs]
    refine Zod.Omits.describe (Zod.Omits.field "x" _ (List.Mem.head _) ?_)
    rw [hx]
    exact Zod.Omits.describe (Zod.Omits.key "stacked" _ (List.Mem.head _) rfl hhas)

/-- C5: when the payload of a model response omits a required field of the chart schema
(`chartType`, `height`, `width`, `backgroundColour`, `options.indexAxis`,
`options.scales.x.stacked` and every other field that is not `.optional()`), the output parser
throws and so does `generate_chart_from_raw_gpt_response`, with the exception of the parser; no
chart spec is produced, so no default stands in for the field, and the trace is empty: the
canvas is not constructed, the renderer and the snippet generator are not invoked. -/
theorem omitted_field_is_rejected (x : Externals) (self : GrizzyAIChartGen) (t : String)
    (payload : JsValue) (hjson : x.jsonOfText t = some payload)
    (homit : parser.schema.Omits payload) :
    (parser.parse x (.str t)).result = .error .outputParserException ∧
      (self.generate_chart_from_raw_gpt_response x (.str t)).result =
        .error .outputParserException ∧
      (self.generate_chart_from_raw_gpt_response x (.str t)).trace = [] := by
  have hnone := homit.parse_eq_none
  rw [parser_parse_rejects x t payload hjson hnone,
    generate_chart_rejects x self t payload hjson hnone]
  exact ⟨rfl, rfl, rfl⟩

theorem omitted_field_is_rejected_witness :
    (parser.parse (testDouble noHeightResponse) (.str noHeightResponse)).result =
        .error .outputParserException ∧
      (testGenerator.generate_chart_from_raw_gpt_response
        (testDouble noHeightResponse) (.str noHeightResponse)).result = .error .outputParserException ∧
      (testGenerator.generate_chart_from_raw_gpt_response
        (testDouble noHeightResponse) (.str noHeightResponse)).trace = [] :=
  omitted_field_is_rejected (testDouble noHeightResponse)
    testGenerator noHeightResponse noHeightPayload rfl
    (Zod.Omits.key "height" (.describe .number "height of the graph canvas default to 400")
      (List.Mem.tail _ (List.Mem.head _)) rfl rfl)

/-! ## Lemmas on the dispatch -/

/-- The chart generator calls nothing but the canvas, the renderer and the snippet generator. -/
theorem generate_chart_trace (x : Externals) (self : GrizzyAIChartGen) (text : JsValue) :
    ∀ ev ∈ (self.generate_chart_from_raw_gpt_response x text).trace, ev.isRenderCall = true := by
  cases hres : (parser.parse x text).result with
  | error e =>
    rw [generate_chart_fails x self text e hres]
    intro ev hev
    simp [Eff.fail] at hev
  | ok spec =>
    obtain ⟨h1, h2, h3⟩ := generate_chart_run x self text spec hres
    cases hc : x.newCanvasError (spec.get "width") (spec.get "height")
        (spec.get "backgroundColour") with
    | some e =>
      rw [h1 e hc]
      intro ev hev
      simp at hev
      subst hev
      rfl
    | none =>
      cases hr : x.renderToDataURL
          ⟨spec.get "width", spec.get "height", spec.get "backgroundColour"⟩
          (.obj [("type", spec.get "chartType"), ("data", spec.get "data"),
            ("options", spec.get "options")]) with
      | error e =>
        rw [h2 hc e hr]
        intro ev hev
        simp at hev
        rcases hev with rfl | rfl <;> rfl
      | ok rendered =>
        rw [h3 hc rendered hr]
        intro ev hev
        simp at hev
        rcases hev with rfl | rfl | rfl <;> rfl

theorem document_loader_trace_head (x : Externals) (self : GrizzyAIChartGen) (query : String)
    (loader : CSVLoader) :
    (self._generic_document_loader x query loader).trace.head? = some (.load loader) := by
  unfold GrizzyAIChartGen._generic_document_loader
  simp only [Eff.bind_def, Eff.andThen, Eff.call]
  cases x.load loader <;> rfl

/-- The runs of the description-only path: the prompt does not format, the chat completion
throws, or the chat completion returns and its text goes to the chart generator. -/
theorem description_run (x : Externals) (self : GrizzyAIChartGen) (user_prompt : String) :
    (∃ e, self.prompt.format [("question", user_prompt)] = .error e ∧
      self._generate_graph_from_description x user_prompt = Eff.fail e) ∨
    (∃ input e, self.prompt.format [("question", user_prompt)] = .ok input ∧
      x.predict self.model input = .error e ∧
      self._generate_graph_from_description x user_prompt =
        ⟨.error e, [.predict self.model input]⟩) ∨
    (∃ input text, self.prompt.format [("question", user_prompt)] = .ok input ∧
      x.predict self.model input = .ok text ∧
      self._generate_graph_from_description x user_prompt =
        ⟨(self.generate_chart_from_raw_gpt_response x (.str text)).result,
          .predict self.model input ::
            (self.generate_chart_from_raw_gpt_response x (.str text)).trace⟩) := by
  unfold GrizzyAIChartGen._generate_graph_from_description
  simp only [Eff.bind_def]
  cases hf : self.prompt.format [("question", user_prompt)] with
  | error e => exact Or.inl ⟨e, rfl, rfl⟩
  | ok input =>
    cases hp : x.predict self.model input with
    | error e =>
      refine Or.inr (Or.inl ⟨input, e, rfl, hp, ?_⟩)
      simp [Eff.andThen, Eff.ofExcept, Eff.call, hp]
    | ok text =>
      refine Or.inr (Or.inr ⟨input, text, rfl, hp, ?_⟩)
      simp [Eff.andThen, Eff.ofExcept, Eff.call, hp]

/-- What the constructor builds when it returns. -/
theorem new_eq_ok (x : Externals) (chart : GrizzyAIChartGen)
    (h : GrizzyAIChartGen.new x = .ok chart) :
    chart.model =
        { temperature := 0, modelName := "gpt-3.5-turbo-16k", openAIApiKey := x.openAIApiKey } ∧
      chart.embeddings = { openAIApiKey := x.openAIApiKey } ∧
      chart.prompt =
        { template := [.literal "Answer the users question as best as possible.\n",
            .slot "format_instructions", .literal "\n", .slot "question"]
          inputVariables := ["question"]
          partialVariables := [("format_instructions", x.formatInstructions)] } ∧
      (keyFound x.openAIApiKey = true ∨ keyFound x.azureOpenAIApiKey = true) := by
  unfold GrizzyAIChartGen.new ChatOpenAI.new OpenAIEmbeddings.new at h
  by_cases hk : (!keyFound x.openAIApiKey && !keyFound x.azureOpenAIApiKey) = true
  · simp [hk, bind, Except.bind] at h
  · simp only [hk, bind, Except.bind] at h
    cases h1 : x.newChatOpenAIError
        { temperature := 0, modelName := "gpt-3.5-turbo-16k", openAIApiKey := x.openAIApiKey } with
    | some e => simp [h1] at h
    | none =>
      cases h2 : x.newOpenAIEmbeddingsError { openAIApiKey := x.openAIApiKey } with
      | some e => simp [h1, h2] at h
      | none =>
        simp [h1, h2, pure, Except.pure] at h
        subst h
        refine ⟨rfl, rfl, rfl, ?_⟩
        cases h3 : keyFound x.openAIApiKey <;> cases h4 : keyFound x.azureOpenAIApiKey <;>
          simp_all

/-- With no key in the environment the constructor throws. -/
theorem new_without_key (x : Externals) (h1 : keyFound x.openAIApiKey = false)
    (h2 : keyFound x.azureOpenAIApiKey = false) :
    GrizzyAIChartGen.new x = .error (.error "OpenAI or Azure OpenAI API key not found") := by
  unfold GrizzyAIChartGen.new ChatOpenAI.new
  simp [h1, h2, bind, Except.bind]

theorem new_prompt_format (x : Externals) (chart : GrizzyAIChartGen) (query : String)
    (h : GrizzyAIChartGen.new x = .ok chart) :
    chart.prompt.format [("question", query)] =
      .ok ("Answer the users question as best as possible.\n" ++ x.formatInstructions ++ "\n"
        ++ query) := by
  rw [(new_eq_ok x chart h).2.2.1]
  simp [PromptTemplate.format, interpolate, List.lookup, String.append_assoc]

/-- C3: for every question and every supplied file whose media type is not `text/csv` (for
instance `application/pdf`), the dispatcher throws `Error("Unsupported file format")` and its
trace is empty: no document load, no embedding call, no chat completion and no render. The
exported function makes no call either; it ends with the same error when the constructor of
the generator returns, and with the error of the constructor when that one throws. -/
theorem unsupported_format_makes_no_call (x : Externals) (self : GrizzyAIChartGen)
    (query : String) (file : UploadedFile) (h : file.mimetype ≠ "text/csv") :
    (self.generate_embeddings_and_generate_graph_from_documents x query (some file)).result =
        .error (.error "Unsupported file format") ∧
      (self.generate_embeddings_and_generate_graph_from_documents x query (some file)).trace =
        [] ∧
      (generate_embeddings_and_generate_graph_from_documents x query (some file)).trace = [] ∧
      (∀ chart, GrizzyAIChartGen.new x = .ok chart →
        (generate_embeddings_and_generate_graph_from_documents x query (some file)).result =
          .error (.error "Unsupported file format")) ∧
      (∀ e, GrizzyAIChartGen.new x = .error e →
        (generate_embeddings_and_generate_graph_from_documents x query (some file)).result =
          .error e) := by
  have hm : ∀ s : GrizzyAIChartGen,
      s.generate_embeddings_and_generate_graph_from_documents x query (some file) =
        Eff.fail (.error "Unsupported file format") := by
    intro s
    simp [GrizzyAIChartGen.generate_embeddings_and_generate_graph_from_documents, h]
  refine ⟨by rw [hm]; rfl, by rw [hm]; rfl, ?_, ?_, ?_⟩
  · unfold generate_embeddings_and_generate_graph_from_documents
    cases GrizzyAIChartGen.new x with
    | error e => rfl
    | ok chart => simp only [hm]; rfl
  · intro chart hc
    unfold generate_embeddings_and_generate_graph_from_documents
    simp only [hc, hm]
    rfl
  · intro e he
    unfold generate_embeddings_and_generate_graph_from_documents
    simp only [he]
    rfl

theorem unsupported_format_makes_no_call_witness :
    (testGenerator.generate_embeddings_and_generate_graph_from_documents
        (testDouble totalsResponse) "bar chart of the totals"
        (some ⟨"application/pdf", [37, 80, 68, 70]⟩)).result =
        .error (.error "Unsupported file format") ∧
      (testGenerator.generate_embeddings_and_generate_graph_from_documents
        (testDouble totalsResponse) "bar chart of the totals"
        (some ⟨"application/pdf", [37, 80, 68, 70]⟩)).trace = [] ∧
      (generate_embeddings_and_generate_graph_from_documents (testDouble totalsResponse)
        "bar chart of the totals" (some ⟨"application/pdf", [37, 80, 68, 70]⟩)).result =
        .error (.error "Unsupported file format") ∧
      (generate_embeddings_and_generate_graph_from_documents (keylessDouble totalsResponse)
        "bar chart of the totals" (some ⟨"application/pdf", [37, 80, 68, 70]⟩)).result =
        .error (.error "OpenAI or Azure OpenAI API key not found") ∧
      (generate_embeddings_and_generate_graph_from_documents (keylessDouble totalsResponse)
        "bar chart of the totals" (some ⟨"application/pdf", [37, 80, 68, 70]⟩)).trace = [] :=
  ⟨(unsupported_format_makes_no_call (testDouble totalsResponse) testGenerator
      "bar chart of the totals" ⟨"application/pdf", [37, 80, 68, 70]⟩ (by decide)).1,
   (unsupported_format_makes_no_call (testDouble totalsResponse) testGenerator
      "bar chart of the totals" ⟨"application/pdf", [37, 80, 68, 70]⟩ (by decide)).2.1,
   (unsupported_format_makes_no_call (testDouble totalsResponse) testGenerator
      "bar chart of the totals" ⟨"application/pdf", [37, 80, 68, 70]⟩ (by decide)).2.2.2.1
      testGenerator rfl,
   (unsupported_format_makes_no_call (keylessDouble totalsResponse) testGenerator
      "bar chart of the totals" ⟨"application/pdf", [37, 80, 68, 70]⟩ (by decide)).2.2.2.2
      (.error "OpenAI or Azure OpenAI API key not found") rfl,
   (unsupported_format_makes_no_call (keylessDouble totalsResponse) testGenerator
      "bar chart of the totals" ⟨"application/pdf", [37, 80, 68, 70]⟩ (by decide)).2.2.1⟩

theorem isDocumentCall_of_isRenderCall (ev : Event) (h : ev.isRenderCall = true) :
    ev.isDocumentCall = false := by
  cases ev <;> simp_all [Event.isRenderCall, Event.isDocumentCall]

theorem isPredict_of_isRenderCall (ev : Event) (h : ev.isRenderCall = true) :
    ev.isPredict = false := by
  cases ev <;> simp_all [Event.isRenderCall, Event.isPredict]

theorem generate_chart_no_predict (x : Externals) (self : GrizzyAIChartGen) (text : JsValue) :
    (self.generate_chart_from_raw_gpt_response x text).trace.filter Event.isPredict = [] := by
  rw [List.filter_eq_nil_iff]
  intro ev hev
  simp [isPredict_of_isRenderCall ev (generate_chart_trace x self text ev hev)]

/-- C4: with no file, the dispatcher is the description-only path and never calls the document
loader, the vector-store builder or the retrieval chain. It formats the prompt and, when the
prompt formats, makes exactly one call to `model.predict`, the first call of the run, with the
formatted prompt. When that call throws the run ends there. When it returns a text the parser
refuses, the run ends with the exception of the parser after that one call. When the parser
returns a chart spec, the calls that follow are those of the chart generator: the canvas
constructor and the render with the configuration built from the spec, then the
pretty-printer. For the generator the constructor builds, the prompt is the fixed sentence, the
format instructions and the question; the exported function runs that generator, or ends
without any call when the constructor throws. -/
theorem no_document_description_path (x : Externals) (self : GrizzyAIChartGen)
    (query : String) :
    self.generate_embeddings_and_generate_graph_from_documents x query none =
        self._generate_graph_from_description x query ∧
      (∀ ev ∈ (self.generate_embeddings_and_generate_graph_from_documents x query none).trace,
        ev.isDocumentCall = false) ∧
      ((self.generate_embeddings_and_generate_graph_from_documents x query none).trace.filter
        Event.isPredict).length ≤ 1 ∧
      (∀ input, self.prompt.format [("question", query)] = .ok input →
        (self.generate_embeddings_and_generate_graph_from_documents x query none).trace.head? =
          some (.predict self.model input) ∧
        ((self.generate_embeddings_and_generate_graph_from_documents x query none).trace.filter
          Event.isPredict).length = 1 ∧
        (∀ e, x.predict self.model input = .error e →
          self.generate_embeddings_and_generate_graph_from_documents x query none =
            ⟨.error e, [.predict self.model input]⟩) ∧
        (∀ text, x.predict self.model input = .ok text →
          (∀ e, (parser.parse x (.str text)).result = .error e →
            self.generate_embeddings_and_generate_graph_from_documents x query none =
              ⟨.error .outputParserException, [.predict self.model input]⟩) ∧
          (∀ spec, (parser.parse x (.str text)).result = .ok spec →
            (self.generate_embeddings_and_generate_graph_from_documents x query none).trace.take
                2 =
              [.predict self.model input,
                .newCanvas (spec.get "width") (spec.get "height")
                  (spec.get "backgroundColour")] ∧
            (x.newCanvasError (spec.get "width") (spec.get "height")
                (spec.get "backgroundColour") = none →
              ∀ rendered, x.renderToDataURL
                  ⟨spec.get "width", spec.get "height", spec.get "backgroundColour"⟩
                  (.obj [("type", spec.get "chartType"), ("data", spec.get "data"),
                    ("options", spec.get "options")]) = .ok rendered →
              self.generate_embeddings_and_generate_graph_from_documents x query none =
                ⟨.ok ⟨rendered.data_url,
                    x.prettify (jsTrim (GrizzyAIChartGen.chartjs_template x
                      rendered.configuration (spec.get "backgroundColour")
                      (spec.get "height") (spec.get "width")))⟩,
                  [.predict self.model input,
                    .newCanvas (spec.get "width") (spec.get "height")
                      (spec.get "backgroundColour"),
                    .renderToDataURL
                      ⟨spec.get "width", spec.get "height", spec.get "backgroundColour"⟩
                      (.obj [("type", spec.get "chartType"), ("data", spec.get "data"),
                        ("options", spec.get "options")]),
                    .prettify (jsTrim (GrizzyAIChartGen.chartjs_template x
                      rendered.configuration (spec.get "backgroundColour")
                      (spec.get "height") (spec.get "width")))]⟩)))) ∧
      (∀ chart, GrizzyAIChartGen.new x = .ok chart →
        chart.prompt.format [("question", query)] =
          .ok ("Answer the users question as best as possible.\n" ++ x.formatInstructions
            ++ "\n" ++ query) ∧
        generate_embeddings_and_generate_graph_from_documents x query none =
          chart.generate_embeddings_and_generate_graph_from_documents x query none) ∧
      (∀ e, GrizzyAIChartGen.new x = .error e →
        generate_embeddings_and_generate_graph_from_documents x query none = Eff.fail e) := by
  have hdesc : self.generate_embeddings_and_generate_graph_from_documents x query none =
      self._generate_graph_from_description x query := rfl
  refine ⟨rfl, ?_, ?_, ?_, ?_, ?_⟩
  · rw [hdesc]
    rcases description_run x self query with ⟨e, -, hrun⟩ | ⟨input, e, -, -, hrun⟩ |
      ⟨input, text, -, -, hrun⟩
    · rw [hrun]; intro ev hev; simp [Eff.fail] at hev
    · rw [hrun]; intro ev hev
      simp at hev
      subst hev
      rfl
    · rw [hrun]; intro ev hev
      simp only [List.mem_cons] at hev
      rcases hev with rfl | hev
      · rfl
      · exact isDocumentCall_of_isRenderCall ev (generate_chart_trace x self _ ev hev)
  · rw [hdesc]
    rcases description_run x self query with ⟨e, -, hrun⟩ | ⟨input, e, -, -, hrun⟩ |
      ⟨input, text, -, -, hrun⟩
    · rw [hrun]; simp [Eff.fail]
    · rw [hrun]; simp [Event.isPredict]
    · rw [hrun]
      simp only [List.filter_cons, Event.isPredict, if_true, generate_chart_no_predict]
      simp
  · intro input hf
    rw [hdesc]
    rcases description_run x self query with ⟨e, hf', -⟩ | ⟨input', e, hf', hp, hrun⟩ |
      ⟨input', text, hf', hp, hrun⟩
    · rw [hf] at hf'; cases hf'
    · rw [hf] at hf'; cases hf'
      rw [hrun]
      refine ⟨rfl, by simp [Event.isPredict], fun e' he' => ?_, fun text ht => ?_⟩
      · rw [hp] at he'; cases he'; rfl
      · rw [hp] at ht; cases ht
    · rw [hf] at hf'; cases hf'
      rw [hrun]
      refine ⟨rfl, ?_, fun e' he' => ?_, fun text' ht => ?_⟩
      · simp only [List.filter_cons, Event.isPredict, if_true, generate_chart_no_predict]
        simp
      · rw [hp] at he'; cases he'
      · rw [hp] at ht; cases ht
        refine ⟨fun e he => ?_, fun spec hs => ?_⟩
        · rw [generate_chart_fails x self _ e he]; rfl
        · obtain ⟨h1, h2, h3⟩ := generate_chart_run x self _ spec hs
          refine ⟨?_, fun hc rendered hr => ?_⟩
          · cases hc : x.newCanvasError (spec.get "width") (spec.get "height")
                (spec.get "backgroundColour") with
            | some e => rw [h1 e hc]; rfl
            | none =>
              cases hr : x.renderToDataURL
                  ⟨spec.get "width", spec.get "height", spec.get "backgroundColour"⟩
                  (.obj [("type", spec.get "chartType"), ("data", spec.get "data"),
                    ("options", spec.get "options")]) with
              | error e => rw [h2 hc e hr]; rfl
              | ok rendered => rw [h3 hc rendered hr]; rfl
          · rw [h3 hc rendered hr]
  · intro chart hc
    refine ⟨new_prompt_format x chart query hc, ?_⟩
    unfold generate_embeddings_and_generate_graph_from_documents
    simp only [hc]
  · intro e he
    unfold generate_embeddings_and_generate_graph_from_documents
    simp only [he]

theorem no_document_description_path_witness :
    generate_embeddings_and_generate_graph_from_documents (testDouble totalsResponse)
        "bar chart of the totals" none =
        testGenerator.generate_embeddings_and_generate_graph_from_documents
          (testDouble totalsResponse) "bar chart of the totals" none ∧
      testGenerator.generate_embeddings_and_generate_graph_from_documents
        (testDouble totalsResponse) "bar chart of the totals" none =
        ⟨.ok ⟨"data:image/png;base64,AAAA", renderedSnippet⟩,
          [.predict testGenerator.model
              "Answer the users question as best as possible.\nReturn a JSON object that follows the chart schema.\nbar chart of the totals",
            .newCanvas (.num (.finite 400)) (.num (.finite 400)) (.str "#FFFFFF"),
            .renderToDataURL ⟨.num (.finite 400), .num (.finite 400), .str "#FFFFFF"⟩
              (.obj [("type", .str "bar"), ("data", totalsPayload.get "data"),
                ("options", sampleOptions)]),
            .prettify renderedSnippet]⟩ ∧
      generate_embeddings_and_generate_graph_from_documents (keylessDouble totalsResponse)
        "bar chart of the totals" none =
        Eff.fail (.error "OpenAI or Azure OpenAI API key not found") :=
  ⟨((no_document_description_path (testDouble totalsResponse) testGenerator
      "bar chart of the totals").2.2.2.2.1 testGenerator rfl).2,
   ((((no_document_description_path (testDouble totalsResponse) testGenerator
      "bar chart of the totals").2.2.2.1
      "Answer the users question as best as possible.\nReturn a JSON object that follows the chart schema.\nbar chart of the totals"
      rfl).2.2.2 totalsResponse rfl).2 totalsPayload rfl).2 rfl
      ⟨"data:image/png;base64,AAAA", withoutAnimation (.obj [("type", .str "bar"),
        ("data", totalsPayload.get "data"), ("options", sampleOptions)])⟩ rfl,
   (no_document_description_path (keylessDouble totalsResponse) testGenerator
      "bar chart of the totals").2.2.2.2.2
      (.error "OpenAI or Azure OpenAI API key not found") rfl⟩

/-- C10: for every question and every supplied file, the dispatcher takes the document path if
and only if the media type of the file is exactly the string `text/csv`; for any other string,
among them `TEXT/CSV`, `text/csv; charset=utf-8` and `application/vnd.ms-excel`, it throws
`Error("Unsupported file format")` without any call; and whether it throws so does not depend on
the buffer of the file. The document path is, in this order and each step only when the one
before returned: the load of the CSV loader over the buffer of the file; the vector store built
from the loaded documents with the embeddings of the generator; the formatted prompt; the call
of the retrieval chain made of the model of the generator, a retriever over that vector store
with distance 0 and k 100, and a buffer memory under the key `chat_history`, with the formatted
prompt as question; then the chart generator on the `text` of the response, which calls the
canvas constructor, the renderer and the pretty-printer and never `model.predict`. -/
theorem dispatch_on_exact_mimetype (x : Externals) (self : GrizzyAIChartGen) (query : String)
    (file : UploadedFile) :
    (file.mimetype ≠ "text/csv" →
      self.generate_embeddings_and_generate_graph_from_documents x query (some file) =
        Eff.fail (.error "Unsupported file format")) ∧
    ((self.generate_embeddings_and_generate_graph_from_documents x query
        (some file)).trace.head? = some (.load { blob := [file.buffer] }) ↔
      file.mimetype = "text/csv") ∧
    (∀ m ∈ ["TEXT/CSV", "text/csv; charset=utf-8", "application/vnd.ms-excel"],
      self.generate_embeddings_and_generate_graph_from_documents x query
        (some { mimetype := m, buffer := file.buffer }) =
        Eff.fail (.error "Unsupported file format")) ∧
    (∀ buffer : List UInt8,
      (self.generate_embeddings_and_generate_graph_from_documents x query
          (some { mimetype := file.mimetype, buffer := buffer }) =
          Eff.fail (.error "Unsupported file format") ↔
        self.generate_embeddings_and_generate_graph_from_documents x query (some file) =
          Eff.fail (.error "Unsupported file format"))) ∧
    (file.mimetype = "text/csv" →
      (∀ e, x.load { blob := [file.buffer] } = .error e →
        self.generate_embeddings_and_generate_graph_from_documents x query (some file) =
          ⟨.error e, [.load { blob := [file.buffer] }]⟩) ∧
      (∀ documents, x.load { blob := [file.buffer] } = .ok documents →
        (∀ e, x.fromDocuments documents self.embeddings = .error e →
          self.generate_embeddings_and_generate_graph_from_documents x query (some file) =
            ⟨.error e, [.load { blob := [file.buffer] },
              .fromDocuments documents self.embeddings]⟩) ∧
        (∀ vectorStore, x.fromDocuments documents self.embeddings = .ok vectorStore →
          (∀ e, self.prompt.format [("question", query)] = .error e →
            self.generate_embeddings_and_generate_graph_from_documents x query (some file) =
              ⟨.error e, [.load { blob := [file.buffer] },
                .fromDocuments documents self.embeddings]⟩) ∧
          (∀ question, self.prompt.format [("question", query)] = .ok question →
            (∀ e, x.chainCall ⟨self.model, ⟨vectorStore, 0, 100⟩, ⟨"chat_history"⟩⟩ question =
                .error e →
              self.generate_embeddings_and_generate_graph_from_documents x query (some file) =
                ⟨.error e, [.load { blob := [file.buffer] },
                  .fromDocuments documents self.embeddings,
                  .chainCall ⟨self.model, ⟨vectorStore, 0, 100⟩, ⟨"chat_history"⟩⟩
                    question]⟩) ∧
            (∀ response,
              x.chainCall ⟨self.model, ⟨vectorStore, 0, 100⟩, ⟨"chat_history"⟩⟩ question =
                .ok response →
              (self.generate_embeddings_and_generate_graph_from_documents x query
                  (some file)).result =
                (self.generate_chart_from_raw_gpt_response x
                  (response.optionalGet "text")).result ∧
              (self.generate_embeddings_and_generate_graph_from_documents x query
                  (some file)).trace =
                .load { blob := [file.buffer] } ::
                  .fromDocuments documents self.embeddings ::
                  .chainCall ⟨self.model, ⟨vectorStore, 0, 100⟩, ⟨"chat_history"⟩⟩ question ::
                  (self.generate_chart_from_raw_gpt_response x
                    (response.optionalGet "text")).trace ∧
              (∀ ev ∈ (self.generate_chart_from_raw_gpt_response x
                  (response.optionalGet "text")).trace, ev.isRenderCall = true) ∧
              (∀ e, (parser.parse x (response.optionalGet "text")).result = .error e →
                self.generate_embeddings_and_generate_graph_from_documents x query
                    (some file) =
                  ⟨.error .outputParserException, [.load { blob := [file.buffer] },
                    .fromDocuments documents self.embeddings,
                    .chainCall ⟨self.model, ⟨vectorStore, 0, 100⟩, ⟨"chat_history"⟩⟩
                      question]⟩) ∧
              (∀ spec, (parser.parse x (response.optionalGet "text")).result = .ok spec →
                x.newCanvasError (spec.get "width") (spec.get "height")
                  (spec.get "backgroundColour") = none →
                ∀ rendered, x.renderToDataURL
                    ⟨spec.get "width", spec.get "height", spec.get "backgroundColour"⟩
                    (.obj [("type", spec.get "chartType"), ("data", spec.get "data"),
                      ("options", spec.get "options")]) = .ok rendered →
                self.generate_embeddings_and_generate_graph_from_documents x query
                    (some file) =
                  ⟨.ok ⟨rendered.data_url,
                      x.prettify (jsTrim (GrizzyAIChartGen.chartjs_template x
                        rendered.configuration (spec.get "backgroundColour")
                        (spec.get "height") (spec.get "width")))⟩,
                    [.load { blob := [file.buffer] },
                      .fromDocuments documents self.embeddings,
                      .chainCall ⟨self.model, ⟨vectorStore, 0, 100⟩, ⟨"chat_history"⟩⟩
                        question,
                      .newCanvas (spec.get "width") (spec.get "height")
                        (spec.get "backgroundColour"),
                      .renderToDataURL
                        ⟨spec.get "width", spec.get "height", spec.get "backgroundColour"⟩
                        (.obj [("type", spec.get "chartType"), ("data", spec.get "data"),
                          ("options", spec.get "options")]),
                      .prettify (jsTrim (GrizzyAIChartGen.chartjs_template x
                        rendered.configuration (spec.get "backgroundColour")
                        (spec.get "height") (spec.get "width")))]⟩)))))) := by
  have hcsv : ∀ f : UploadedFile, f.mimetype = "text/csv" →
      self.generate_embeddings_and_generate_graph_from_documents x query (some f) =
        self._generic_document_loader x query { blob := [f.buffer] } := by
    intro f hf
    simp [GrizzyAIChartGen.generate_embeddings_and_generate_graph_from_documents, hf]
  have hother : ∀ f : UploadedFile, f.mimetype ≠ "text/csv" →
      self.generate_embeddings_and_generate_graph_from_documents x query (some f) =
        Eff.fail (.error "Unsupported file format") := by
    intro f hf
    simp [GrizzyAIChartGen.generate_embeddings_and_generate_graph_from_documents, hf]
  have hne : ∀ loader : CSVLoader, self._generic_document_loader x query loader ≠
      Eff.fail (.error "Unsupported file format") := by
    intro loader heq
    have := document_loader_trace_head x self query loader
    rw [heq] at this
    simp [Eff.fail] at this
  refine ⟨hother file, ?_, ?_, ?_, ?_⟩
  · by_cases hm : file.mimetype = "text/csv"
    · rw [hcsv file hm]
      simp [document_loader_trace_head, hm]
    · rw [hother file hm]
      simp [Eff.fail, hm]
  · intro m hm
    apply hother
    simp only [List.mem_cons, List.mem_singleton, List.not_mem_nil, or_false] at hm
    rcases hm with rfl | rfl | rfl <;> (show _ ≠ _; simp)
  · intro buffer
    by_cases hm : file.mimetype = "text/csv"
    · rw [hcsv file hm, hcsv ⟨file.mimetype, buffer⟩ hm]
      simp [hne]
    · rw [hother file hm, hother ⟨file.mimetype, buffer⟩ hm]
  · intro hm
    rw [hcsv file hm]
    unfold GrizzyAIChartGen._generic_document_loader
    simp only [Eff.bind_def]
    refine ⟨fun e he => ?_, fun documents hl => ⟨fun e he => ?_, fun vectorStore hv =>
      ⟨fun e he => ?_, fun question hq => ⟨fun e he => ?_, fun response hr => ?_⟩⟩⟩⟩
    · simp [Eff.andThen, Eff.call, he]
    · simp [Eff.andThen, Eff.call, hl, he]
    · simp [Eff.andThen, Eff.call, Eff.ofExcept, hl, hv, he]
    · simp [Eff.andThen, Eff.call, Eff.ofExcept, hl, hv, hq, he]
    · have hrun : (Eff.call (.load { blob := [file.buffer] })
            (x.load { blob := [file.buffer] })).andThen (fun documents =>
          (Eff.call (.fromDocuments documents self.embeddings)
            (x.fromDocuments documents self.embeddings)).andThen (fun vectorStore =>
          (Eff.ofExcept (self.prompt.format [("question", query)])).andThen (fun question =>
          (Eff.call
            (.chainCall ⟨self.model, ⟨vectorStore, 0, 100⟩, ⟨"chat_history"⟩⟩ question)
            (x.chainCall ⟨self.model, ⟨vectorStore, 0, 100⟩, ⟨"chat_history"⟩⟩
              question)).andThen (fun response =>
          self.generate_chart_from_raw_gpt_response x (response.optionalGet "text"))))) =
          ⟨(self.generate_chart_from_raw_gpt_response x
              (response.optionalGet "text")).result,
            .load { blob := [file.buffer] } ::
              .fromDocuments documents self.embeddings ::
              .chainCall ⟨self.model, ⟨vectorStore, 0, 100⟩, ⟨"chat_history"⟩⟩ question ::
              (self.generate_chart_from_raw_gpt_response x
                (response.optionalGet "text")).trace⟩ := by
        simp [Eff.andThen, Eff.call, Eff.ofExcept, hl, hv, hq, hr]
      rw [hrun]
      refine ⟨rfl, rfl, generate_chart_trace x self _, fun e he => ?_,
        fun spec hs hc rendered hrd => ?_⟩
      · rw [generate_chart_fails x self _ e he]; rfl
      · rw [(generate_chart_run x self _ spec hs).2.2 hc rendered hrd]

theorem dispatch_on_exact_mimetype_witness :
    testGenerator.generate_embeddings_and_generate_graph_from_documents
        (testDouble totalsResponse) "bar chart of the totals"
        (some ⟨"application/vnd.ms-excel", [65, 44, 49]⟩) =
        Eff.fail (.error "Unsupported file format") ∧
      testGenerator.generate_embeddings_and_generate_graph_from_documents
        (testDouble totalsResponse) "bar chart of the totals"
        (some ⟨"text/csv", [65, 44, 49]⟩) =
        ⟨.ok ⟨"data:image/png;base64,AAAA", renderedSnippet⟩,
          [.load { blob := [[65, 44, 49]] },
            .fromDocuments [⟨"A: 1"⟩, ⟨"B: 2"⟩] testGenerator.embeddings,
            .chainCall
              ⟨testGenerator.model, ⟨⟨[(⟨"A: 1"⟩, [0]), (⟨"B: 2"⟩, [0])]⟩, 0, 100⟩,
                ⟨"chat_history"⟩⟩
              "Answer the users question as best as possible.\nReturn a JSON object that follows the chart schema.\nbar chart of the totals",
            .newCanvas (.num (.finite 400)) (.num (.finite 400)) (.str "#FFFFFF"),
            .renderToDataURL ⟨.num (.finite 400), .num (.finite 400), .str "#FFFFFF"⟩
              (.obj [("type", .str "bar"), ("data", totalsPayload.get "data"),
                ("options", sampleOptions)]),
            .prettify renderedSnippet]⟩ :=
  ⟨(dispatch_on_exact_mimetype (testDouble totalsResponse) testGenerator
      "bar chart of the totals" ⟨"application/vnd.ms-excel", [65, 44, 49]⟩).1 (by decide),
   ((((((dispatch_on_exact_mimetype (testDouble totalsResponse) testGenerator
      "bar chart of the totals" ⟨"text/csv", [65, 44, 49]⟩).2.2.2.2 rfl).2
      [⟨"A: 1"⟩, ⟨"B: 2"⟩] rfl).2 ⟨[(⟨"A: 1"⟩, [0]), (⟨"B: 2"⟩, [0])]⟩ rfl).2
      "Answer the users question as best as possible.\nReturn a JSON object that follows the chart schema.\nbar chart of the totals"
      rfl).2 (.obj [("text", .str totalsResponse)]) rfl).2.2.2.2 totalsPayload rfl rfl
      ⟨"data:image/png;base64,AAAA", withoutAnimation (.obj [("type", .str "bar"),
        ("data", totalsPayload.get "data"), ("options", sampleOptions)])⟩ rfl⟩

/-! ## Lemmas on the snippet generator -/

theorem dropWhile_append_of_all {p : Char → Bool} (pre l : List Char)
    (hpre : ∀ c ∈ pre, p c = true) : (pre ++ l).dropWhile p = l.dropWhile p := by
  induction pre with
  | nil => rfl
  | cons c pre ih =>
    have hc : p c = true := hpre c (List.mem_cons_self _ _)
    simp only [List.cons_append, List.dropWhile_cons, hc, if_true]
    exact ih (fun d hd => hpre d (List.mem_cons_of_mem _ hd))

/-- Trimming removes white space around a text that starts and ends with other characters. -/
theorem jsTrim_wrap (pre post mid : List Char) (a b : Char)
    (hpre : ∀ c ∈ pre, isJsWhiteSpace c = true) (hpost : ∀ c ∈ post, isJsWhiteSpace c = true)
    (ha : isJsWhiteSpace a = false) (hb : isJsWhiteSpace b = false) :
    jsTrim ⟨pre ++ (a :: mid ++ [b]) ++ post⟩ = ⟨a :: mid ++ [b]⟩ := by
  unfold jsTrim
  congr 1
  simp only [List.append_assoc]
  rw [dropWhile_append_of_all pre _ hpre]
  simp only [List.cons_append, List.dropWhile_cons, ha, Bool.false_eq_true, if_false]
  have hrev : (a :: (mid ++ b :: ([] ++ post))).reverse =
      post.reverse ++ (b :: (a :: mid).reverse) := by
    simp
  rw [hrev, dropWhile_append_of_all post.reverse _
    (fun c hc => hpost c (List.mem_reverse.mp hc))]
  simp only [List.dropWhile_cons, hb, Bool.false_eq_true, if_false]
  simp

/-- Trimming a text made of pieces, when the white space is at both ends only. -/
theorem jsTrim_pieces (pre post : List Char) (a e h b w c bg d json : String)
    (hpre : ∀ ch ∈ pre, isJsWhiteSpace ch = true)
    (hpost : ∀ ch ∈ post, isJsWhiteSpace ch = true) :
    jsTrim ((⟨pre ++ '<' :: a.data⟩ : String) ++ h ++ b ++ w ++ c ++ bg ++ d ++ json
        ++ ⟨e.data ++ '>' :: post⟩) =
      (⟨'<' :: a.data⟩ : String) ++ h ++ b ++ w ++ c ++ bg ++ d ++ json ++ ⟨e.data ++ ['>']⟩ := by
  have := jsTrim_wrap pre post
    (a.data ++ h.data ++ b.data ++ w.data ++ c.data ++ bg.data ++ d.data ++ json.data ++ e.data)
    '<' '>' hpre hpost (by decide) (by decide)
  refine Eq.trans (congrArg jsTrim (String.ext ?_)) (this.trans (String.ext ?_))
  · simp only [String.data_append, List.append_assoc, List.cons_append, List.nil_append,
      List.singleton_append]
  · simp only [String.data_append, List.append_assoc, List.cons_append, List.nil_append,
      List.singleton_append]

/-- The HTML text of the snippet, after `.trim()`. -/
theorem chartjs_template_trimmed (x : Externals) (context backgroundColor height width : JsValue) :
    jsTrim (GrizzyAIChartGen.chartjs_template x context backgroundColor height width) =
      "<!--This code was generated by GrizzyAi chart generator (https://charts.grizzy-deploy.com)-->\n        <div>\n            <canvas id=\"myChart\" height=\""
      ++ height.toJsString x.numberToString
      ++ "\" width=\""
      ++ width.toJsString x.numberToString
      ++ "\" style=\"background-color:"
      ++ backgroundColor.toJsString x.numberToString
      ++ "\"></canvas>\n        </div>\n    \n        <script src=\"https://cdn.jsdelivr.net/npm/chart.js\"></script>\n    \n        <script>\n            const ctx = document.getElementById(\x27myChart\x27);\n            new Chart(ctx, "
      ++ (match context with
          | .undefined => "undefined"
          | c => x.jsonStringify c)
      ++ ");\n        </script>" := by
  unfold GrizzyAIChartGen.chartjs_template
  have hA : ("\n            <!--This code was generated by GrizzyAi chart generator (https://charts.grizzy-deploy.com)-->\n        <div>\n            <canvas id=\"myChart\" height=\"" : String)
      = ⟨['\n', ' ', ' ', ' ', ' ', ' ', ' ', ' ', ' ', ' ', ' ', ' ', ' '] ++ '<' :: "!--This code was generated by GrizzyAi chart generator (https://charts.grizzy-deploy.com)-->\n        <div>\n            <canvas id=\"myChart\" height=\"".data⟩ := by
    decide
  have hA' : ("<!--This code was generated by GrizzyAi chart generator (https://charts.grizzy-deploy.com)-->\n        <div>\n            <canvas id=\"myChart\" height=\"" : String)
      = ⟨'<' :: "!--This code was generated by GrizzyAi chart generator (https://charts.grizzy-deploy.com)-->\n        <div>\n            <canvas id=\"myChart\" height=\"".data⟩ := by
    decide
  have hE : (");\n        </script>\n        " : String)
      = ⟨");\n        </script".data ++ '>' :: ['\n', ' ', ' ', ' ', ' ', ' ', ' ', ' ', ' ']⟩ := by
    decide
  have hE' : (");\n        </script>" : String) = ⟨");\n        </script".data ++ ['>']⟩ := by
    decide
  rw [hA, hE, hA', hE']
  exact jsTrim_pieces _ _ _ _ _ _ _ _ _ _ _ (by decide) (by decide)

/-- C9: for every configuration, backgroundColour, height and width, `generate_chartjs_code`
makes one call, to the pretty-printer, and returns what it returns. The HTML text it hands over
is: the comment line, a `div` with the canvas element whose `height` and `width` attributes are
the texts of the given height and width and whose `style` is `background-color:` followed by
the text of the given backgroundColour, the script tag with the source
`https://cdn.jsdelivr.net/npm/chart.js`, and the inline script that calls `new Chart(ctx, C)`
with `C` the result of `JSON.stringify` on the given configuration. Inside the template a
number reads as its text and a string as itself. The instance fields play no part. -/
theorem snippet_html_text (x : Externals) (self : GrizzyAIChartGen)
    (context backgroundColor height width : JsValue) (hc : context ≠ .undefined) :
    self.generate_chartjs_code x context backgroundColor height width =
      Eff.call
        (.prettify ("<!--This code was generated by GrizzyAi chart generator (https://charts.grizzy-deploy.com)-->\n        <div>\n            <canvas id=\"myChart\" height=\""
          ++ height.toJsString x.numberToString
          ++ "\" width=\""
          ++ width.toJsString x.numberToString
          ++ "\" style=\"background-color:"
          ++ backgroundColor.toJsString x.numberToString
          ++ "\"></canvas>\n        </div>\n    \n        <script src=\"https://cdn.jsdelivr.net/npm/chart.js\"></script>\n    \n        <script>\n            const ctx = document.getElementById(\x27myChart\x27);\n            new Chart(ctx, "
          ++ x.jsonStringify context
          ++ ");\n        </script>"))
        (.ok (x.prettify ("<!--This code was generated by GrizzyAi chart generator (https://charts.grizzy-deploy.com)-->\n        <div>\n            <canvas id=\"myChart\" height=\""
          ++ height.toJsString x.numberToString
          ++ "\" width=\""
          ++ width.toJsString x.numberToString
          ++ "\" style=\"background-color:"
          ++ backgroundColor.toJsString x.numberToString
          ++ "\"></canvas>\n        </div>\n    \n        <script src=\"https://cdn.jsdelivr.net/npm/chart.js\"></script>\n    \n        <script>\n            const ctx = document.getElementById(\x27myChart\x27);\n            new Chart(ctx, "
          ++ x.jsonStringify context
          ++ ");\n        </script>"))) ∧
      (∀ n, (JsValue.num n).toJsString x.numberToString = x.numberToString n) ∧
      (∀ s, (JsValue.str s).toJsString x.numberToString = s) ∧
      (∀ other : GrizzyAIChartGen,
        other.generate_chartjs_code x context backgroundColor height width =
          self.generate_chartjs_code x context backgroundColor height width) := by
  refine ⟨?_, fun n => ?_, fun s => ?_, fun _ => rfl⟩
  · unfold GrizzyAIChartGen.generate_chartjs_code
    rw [chartjs_template_trimmed]
    cases context <;> first | exact absurd rfl hc | rfl
  · simp [JsValue.toJsString]
  · simp [JsValue.toJsString]

theorem snippet_html_text_witness :
    testGenerator.generate_chartjs_code
        (testDouble totalsResponse) (.obj [("type", .str "bar")]) (.str "#FFFFFF")
        (.num (.finite 400)) (.num (.finite 300)) =
      Eff.call
        (.prettify "<!--This code was generated by GrizzyAi chart generator (https://charts.grizzy-deploy.com)-->\n        <div>\n            <canvas id=\"myChart\" height=\"400\" width=\"300\" style=\"background-color:#FFFFFF\"></canvas>\n        </div>\n    \n        <script src=\"https://cdn.jsdelivr.net/npm/chart.js\"></script>\n    \n        <script>\n            const ctx = document.getElementById(\x27myChart\x27);\n            new Chart(ctx, \x7b\"type\":\"bar\"\x7d);\n        </script>")
        (.ok "<!--This code was generated by GrizzyAi chart generator (https://charts.grizzy-deploy.com)-->\n        <div>\n            <canvas id=\"myChart\" height=\"400\" width=\"300\" style=\"background-color:#FFFFFF\"></canvas>\n        </div>\n    \n        <script src=\"https://cdn.jsdelivr.net/npm/chart.js\"></script>\n    \n        <script>\n            const ctx = document.getElementById(\x27myChart\x27);\n            new Chart(ctx, \x7b\"type\":\"bar\"\x7d);\n        </script>") :=
  (snippet_html_text (testDouble totalsResponse)
    testGenerator (.obj [("type", .str "bar")])
    (.str "#FFFFFF") (.num (.finite 400)) (.num (.finite 300))
    (fun h => JsValue.noConfusion h)).1
end GrizzyCharts
